import Mathlib

/-!
# Verification of the god-engine procedural world simulator

A shallow embedding of the core engine (`src/engine/*.ts`) of the
seed-driven, tick-stepped procedural world simulator, together with
proofs settling the frozen claims about it.

Modelling conventions, used throughout:

* JavaScript `number` values are idealized as exact rationals (`ℚ`).
  Where the source relies on 32-bit integer semantics (`>>>`, `^`, `|`,
  `Math.imul`) we model the wrap-around exactly (`toUint32`, `toInt32`),
  and where a JavaScript double multiplication of large integers is
  rounded we model IEEE-754 round-to-nearest-even exactly (`f64round`).
  `Math.sqrt`, `Math.cos` and `Math.sin` are irrational-valued; they are
  replaced by fixed deterministic computable stand-ins (`jsSqrt`,
  `jsCos`, `jsSin`).  Every claim settled below is insensitive to the
  choice of these stand-ins.
* Dense typed arrays (`Float32Array`, `Uint8Array`, `Uint32Array`)
  indexed by `y * width + x` are idealized as total functions
  `ℤ → ℤ → value` whose value outside `[0,width) × [0,height)` is the
  zero of the element type (a typed array has no storage there).
  Float32 quantization of stored values is idealized away.
* Per-cell loops whose iterations write disjoint cells and read only
  static data and the cell itself are rendered as pointwise function
  definitions; loops with cross-iteration data flow (flow accumulation,
  the agent roster loop) are rendered as folds / structural recursion.
-/

set_option maxRecDepth 40000

namespace GodEngine

/-- 2^32, the wrap-around modulus of JavaScript 32-bit integer coercions. -/
def U32 : ℕ := 4294967296

/-- Fuel-driven binary logarithm (the fuel `n` always suffices, so this
equals the base-2 logarithm; written with explicit fuel so that it
reduces by structural recursion). -/
def log2Fuel : ℕ → ℕ → ℕ
  | 0, _ => 0
  | fuel + 1, n => if n < 2 then 0 else log2Fuel fuel (n / 2) + 1

/-- The base-2 logarithm (0 for 0 and 1). -/
def jsLog2 (n : ℕ) : ℕ := log2Fuel n n

/-- One bit-setting step of the integer square root below. -/
def isqrtStep (n : ℕ) (acc : ℕ) (k : ℕ) : ℕ :=
  let cand := acc + 2 ^ k
  if cand * cand ≤ n then cand else acc

/-- Integer square root (`⌊√n⌋`), built bit by bit from the highest
candidate bit down; structural, so it reduces in the kernel. -/
def isqrt (n : ℕ) : ℕ :=
  ((List.range (jsLog2 n / 2 + 1)).reverse).foldl (isqrtStep n) 0

/-- JavaScript `ToUint32` of an integer-valued double. -/
def toUint32 (n : ℤ) : ℕ := (n % (U32 : ℤ)).toNat

/-- JavaScript `ToInt32` of an integer-valued double. -/
def toInt32 (n : ℤ) : ℤ :=
  let m := n % (U32 : ℤ)
  if m < 2147483648 then m else m - (U32 : ℤ)

/-- IEEE-754 double (binary64) rounding of an integer: round to nearest
representable value, ties to even.  Exact below `2^53`.  This models the
precision loss of JavaScript products such as `n * 1274126177`. -/
def f64round (m : ℤ) : ℤ :=
  let a := m.natAbs
  if a < 2 ^ 53 then m
  else
    let k := jsLog2 a - 52
    let q := a / 2 ^ k
    let r := a % 2 ^ k
    let half := 2 ^ (k - 1)
    let q2 := if half < r ∨ (r = half ∧ q % 2 = 1) then q + 1 else q
    (if m < 0 then -1 else 1) * (q2 * 2 ^ k : ℕ)

/-- Deterministic computable stand-in for JavaScript `Math.sqrt` (fixed
point, 2^-20 resolution; exact on perfect squares, 0 on non-positive
input).  The claims proved below depend only on its determinism. -/
def jsSqrt (q : ℚ) : ℚ :=
  if q ≤ 0 then 0 else (isqrt (q * 2 ^ 40).floor.toNat : ℚ) / 2 ^ 20

/-- The exact rational value of the JavaScript double `Math.PI`. -/
def jsPI : ℚ := 884279719003555 / 281474976710656

/-- Rounding helper keeping the trigonometric stand-ins on a fixed
2^-26 grid, mimicking the bounded precision of doubles. -/
def roundQ (q : ℚ) : ℚ := (q * 2 ^ 26).floor / 2 ^ 26

/-- Deterministic computable stand-in for JavaScript `Math.cos`
(truncated Taylor polynomial on a fixed grid).  The claims proved below
depend only on its determinism. -/
def jsCos (q : ℚ) : ℚ :=
  let x := roundQ q
  roundQ (1 - x ^ 2 / 2 + x ^ 4 / 24 - x ^ 6 / 720 + x ^ 8 / 40320)

/-- Deterministic computable stand-in for JavaScript `Math.sin`
(truncated Taylor polynomial on a fixed grid).  The claims proved below
depend only on its determinism. -/
def jsSin (q : ℚ) : ℚ :=
  let x := roundQ q
  roundQ (x - x ^ 3 / 6 + x ^ 5 / 120 - x ^ 7 / 5040)

/-- Clamp to `[0, 1]`, as `Math.max(0, Math.min(1, value))`. -/
def clamp01 (q : ℚ) : ℚ := max 0 (min 1 q)

/-! ## SeededRNG (`src/engine/rng.ts`)

Modelled from the spec: the file `src/engine/rng.ts` is not part of the
provided sources (only its tests and call sites are).  Per spec §4.1 the
RNG "holds one 32-bit mixing state advanced by a fixed update rule";
`next()` returns a float in `[0,1)`; `range(lo,hi)` a float in the
range; `int(lo,hi)` an inclusive integer; `clone()` copies the current
state; `getState()`/`setState()` expose the raw integer state for exact
resume.  We realize the fixed update rule as a 32-bit linear
congruential step; every claim below depends only on the contract, not
on the particular mixing constants. -/

/-- Modelled from the spec: deterministic pseudo-random source with a
single 32-bit mixing state (`src/engine/rng.ts` is absent from the
sources). -/
structure SeededRNG where
  state : Fin 4294967296
deriving DecidableEq

/-- Modelled from the spec: `new SeededRNG(seed)` folds the integer seed
into the 32-bit state. -/
def SeededRNG.mk32 (seed : ℤ) : SeededRNG :=
  ⟨⟨toUint32 seed, by
    have := Int.emod_lt_of_pos seed (b := (U32 : ℤ)) (by norm_num [U32])
    have h0 := Int.emod_nonneg seed (b := (U32 : ℤ)) (by norm_num [U32])
    simp only [toUint32, U32] at *
    omega⟩⟩

/-- Modelled from the spec: the fixed 32-bit mixing update rule. -/
def SeededRNG.step (s : Fin 4294967296) : Fin 4294967296 :=
  ⟨(s.val * 1664525 + 1013904223) % 4294967296, Nat.mod_lt _ (by norm_num)⟩

/-- Modelled from the spec: `next()` advances the state and returns a
float in `[0, 1)`. -/
def SeededRNG.next (r : SeededRNG) : ℚ × SeededRNG :=
  let s := SeededRNG.step r.state
  ((s.val : ℚ) / 4294967296, ⟨s⟩)

/-- Modelled from the spec: `range(lo, hi)` returns a float in the
requested range. -/
def SeededRNG.rangeQ (r : SeededRNG) (lo hi : ℚ) : ℚ × SeededRNG :=
  let n := r.next
  (lo + n.1 * (hi - lo), n.2)

/-- Modelled from the spec: `int(lo, hi)`, inclusive on both ends. -/
def SeededRNG.intQ (r : SeededRNG) (lo hi : ℤ) : ℤ × SeededRNG :=
  let n := r.next
  (((lo : ℚ) + n.1 * ((hi : ℚ) - lo + 1)).floor, n.2)

/-- Modelled from the spec: `clone()` copies the current state. -/
def SeededRNG.clone (r : SeededRNG) : SeededRNG := ⟨r.state⟩

/-- Modelled from the spec: `getState()` exposes the raw integer state. -/
def SeededRNG.getState (r : SeededRNG) : ℕ := r.state.val

/-- Modelled from the spec: `setState()` restores a raw integer state
(folded into 32 bits, as the state is 32-bit). -/
def SeededRNG.setState (_r : SeededRNG) (n : ℕ) : SeededRNG :=
  ⟨⟨n % 4294967296, Nat.mod_lt _ (by norm_num)⟩⟩

/-- The first `n` outputs of `next()` from a given RNG state. -/
def rngOutputs : ℕ → SeededRNG → List ℚ
  | 0, _ => []
  | n + 1, r =>
    let p := r.next
    p.1 :: rngOutputs n p.2

/-! ## Enums (`src/engine/enums.ts`, `src/engine/agent.ts`, `src/engine/history.ts`) -/

/-- `enum BiomeType` — numeric codes 0..6 stored in the `Uint8Array`. -/
inductive BiomeType where
  | OCEAN
  | BEACH
  | PLAINS
  | FOREST
  | DESERT
  | MOUNTAIN
  | SNOW
deriving DecidableEq, Repr

/-- The list of the 7 biome variants in numeric-code order, used by
`getCounts` (`Object.values` enumerates the integer keys 0..6 in
ascending order). -/
def biomeOrder : List BiomeType :=
  [.OCEAN, .BEACH, .PLAINS, .FOREST, .DESERT, .MOUNTAIN, .SNOW]

/-- `enum AgentState` — string-valued. -/
inductive AgentState where
  | IDLE
  | FORAGING
  | EATING
  | REPRODUCING
  | DEAD
deriving DecidableEq, Repr

/-- The string value of an `AgentState` (the enum is string-tagged). -/
def AgentState.str : AgentState → String
  | .IDLE => "IDLE"
  | .FORAGING => "FORAGING"
  | .EATING => "EATING"
  | .REPRODUCING => "REPRODUCING"
  | .DEAD => "DEAD"

/-- `enum EventType` (`src/engine/history.ts`) — string-valued. -/
inductive EventType where
  | AGENT_DEATH
  | AGENT_SPAWN
  | WORLD_GENERATE
deriving DecidableEq, Repr

/-- `interface HistoryEvent` (`src/engine/history.ts`). -/
structure HistoryEvent where
  tick : ℕ
  type : EventType
  x : Option ℚ
  y : Option ℚ
  details : Option String
deriving DecidableEq

/-! ## WORLD_CONFIG (`src/engine/config.ts`, "Scarcity v1" revision) -/

/-- `WORLD_CONFIG.VEGETATION.MAX_DENSITY`. -/
def MAX_DENSITY : BiomeType → ℚ
  | .OCEAN => 0
  | .BEACH => 1 / 10
  | .PLAINS => 1 / 2
  | .FOREST => 9 / 10
  | .DESERT => 1 / 20
  | .MOUNTAIN => 1 / 5
  | .SNOW => 0

/-- `WORLD_CONFIG.VEGETATION.GROWTH_RATE` (Scarcity v1, tuned down). -/
def GROWTH_RATE : BiomeType → ℚ
  | .OCEAN => 0
  | .BEACH => 2 / 10000
  | .PLAINS => 10 / 10000
  | .FOREST => 20 / 10000
  | .DESERT => 1 / 10000
  | .MOUNTAIN => 5 / 10000
  | .SNOW => 0

/-- `WORLD_CONFIG.VEGETATION.INITIAL_BASE`. -/
def INITIAL_BASE : ℚ := 1 / 4

/-- `WORLD_CONFIG.VEGETATION.INITIAL_MOISTURE_BONUS`. -/
def INITIAL_MOISTURE_BONUS : ℚ := 55 / 100

/-- `WORLD_CONFIG.AGENT.MAX_HUNGER`. -/
def CFG_MAX_HUNGER : ℚ := 100

/-- `WORLD_CONFIG.AGENT.HUNGER_RATE`. -/
def CFG_HUNGER_RATE : ℚ := 1 / 10

/-- `WORLD_CONFIG.AGENT.MOVE_COST`. -/
def CFG_MOVE_COST : ℚ := 1 / 20

/-- `WORLD_CONFIG.AGENT.MAX_ENERGY`. -/
def CFG_MAX_ENERGY : ℚ := 100

/-- `WORLD_CONFIG.AGENT.ENERGY_DECAY`. -/
def CFG_ENERGY_DECAY : ℚ := 1 / 50

/-- `WORLD_CONFIG.AGENT.SENSE_RADIUS`. -/
def CFG_SENSE_RADIUS : ℚ := 5

/-- `WORLD_CONFIG.AGENT.SPEED`. -/
def CFG_SPEED : ℚ := 1

/-- `WORLD_CONFIG.AGENT.REPRODUCTION.HUNGER_THRESHOLD`. -/
def REPRO_HUNGER_THRESHOLD : ℚ := 15

/-- `WORLD_CONFIG.AGENT.REPRODUCTION.ENERGY_REQUIRED`. -/
def REPRO_ENERGY_REQUIRED : ℚ := 35

/-- `WORLD_CONFIG.AGENT.REPRODUCTION.MIN_LOCAL_VEG`. -/
def REPRO_MIN_LOCAL_VEG : ℚ := 15 / 100

/-- `WORLD_CONFIG.AGENT.REPRODUCTION.COOLDOWN_TICKS`. -/
def REPRO_COOLDOWN_TICKS : ℕ := 240

/-- `WORLD_CONFIG.AGENT.REPRODUCTION.MUTATION_RATE`. -/
def REPRO_MUTATION_RATE : ℚ := 1 / 10

/-- `WORLD_CONFIG.AGENT.REPRODUCTION.MUTATION_AMOUNT`. -/
def REPRO_MUTATION_AMOUNT : ℚ := 1 / 5

/-! ## Grid layers -/

/-- In-bounds test shared by every grid guard:
`x >= 0 && x < width && y >= 0 && y < height`. -/
def inGrid (width height : ℕ) (x y : ℤ) : Prop :=
  0 ≤ x ∧ x < (width : ℤ) ∧ 0 ≤ y ∧ y < (height : ℤ)

instance (width height : ℕ) (x y : ℤ) : Decidable (inGrid width height x y) := by
  unfold inGrid; infer_instance

/-- `interface RealTerrainMetadata` geographic bounds. -/
structure GeoBounds where
  north : ℚ
  south : ℚ
  east : ℚ
  west : ℚ
deriving DecidableEq

/-- Optional metadata carried by a real-terrain `HeightMap`. -/
structure RealTerrainMetadata where
  locationName : String
  minElevation : ℚ
  maxElevation : ℚ
  bounds : GeoBounds

/-- `class HeightMap` (`src/engine/height.ts`): dense `Float32Array`
idealized as a function; out-of-bounds reads return 0. -/
structure HeightMap where
  width : ℕ
  height : ℕ
  data : ℤ → ℤ → ℚ
  realTerrainMetadata : Option RealTerrainMetadata := none

/-- `HeightMap.get`: bounds-guarded read, default 0. -/
def HeightMap.get (m : HeightMap) (x y : ℤ) : ℚ :=
  if inGrid m.width m.height x y then m.data x y else 0

/-- Linear enumeration of the backing array (`data[i]`, `i = y*width+x`). -/
def HeightMap.lin (m : HeightMap) (i : ℕ) : ℚ :=
  m.data ((i % m.width : ℕ) : ℤ) ((i / m.width : ℕ) : ℤ)

/-- `HeightMap.normalize`: min-max normalize the whole grid to `[0,1]`
when the range is positive, no-op otherwise (the JavaScript loop starts
from `min = Infinity`, `max = -Infinity`; on a non-empty grid that is
the fold below, on an empty grid `range > 0` is false either way). -/
def HeightMap.normalize (m : HeightMap) : HeightMap :=
  let vals := (List.range (m.width * m.height)).map m.lin
  match vals with
  | [] => m
  | v :: rest =>
    let minV := rest.foldl min v
    let maxV := rest.foldl max v
    let range := maxV - minV
    if 0 < range then
      { m with data := fun x y =>
          if inGrid m.width m.height x y then (m.data x y - minV) / range
          else m.data x y }
    else m

/-- `class MoistureMap` (`src/engine/moisture.ts`). -/
structure MoistureMap where
  width : ℕ
  height : ℕ
  data : ℤ → ℤ → ℚ

/-- `MoistureMap.get`: bounds-guarded read, default 0. -/
def MoistureMap.get (m : MoistureMap) (x y : ℤ) : ℚ :=
  if inGrid m.width m.height x y then m.data x y else 0

/-- Linear enumeration of the backing array. -/
def MoistureMap.lin (m : MoistureMap) (i : ℕ) : ℚ :=
  m.data ((i % m.width : ℕ) : ℤ) ((i / m.width : ℕ) : ℤ)

/-- `class VegetationMap` (`src/engine/vegetation.ts`). -/
structure VegetationMap where
  width : ℕ
  height : ℕ
  data : ℤ → ℤ → ℚ

/-- `VegetationMap.get`: bounds-guarded read, default 0. -/
def VegetationMap.get (m : VegetationMap) (x y : ℤ) : ℚ :=
  if inGrid m.width m.height x y then m.data x y else 0

/-- `VegetationMap.set`: bounds-guarded write, clamping the stored value
to `[0, 1]` (`Math.max(0, Math.min(1, value))`). -/
def VegetationMap.set (m : VegetationMap) (x y : ℤ) (value : ℚ) : VegetationMap :=
  if inGrid m.width m.height x y then
    { m with data := fun a b => if a = x ∧ b = y then clamp01 value else m.data a b }
  else m

/-- `VegetationMap.consume`: clamps subtraction at zero and returns the
amount actually removed, paired with the updated map. -/
def VegetationMap.consume (m : VegetationMap) (x y : ℤ) (amount : ℚ) :
    ℚ × VegetationMap :=
  let current := m.get x y
  let consumed := min current amount
  (consumed, m.set x y (current - consumed))

/-- Linear enumeration of the backing array. -/
def VegetationMap.lin (m : VegetationMap) (i : ℕ) : ℚ :=
  m.data ((i % m.width : ℕ) : ℤ) ((i / m.width : ℕ) : ℤ)

/-- `class BiomeMap` (`src/engine/biome.ts`): `Uint8Array` of biome
codes; the zero-initialized / out-of-bounds value is `OCEAN` (code 0). -/
structure BiomeMap where
  width : ℕ
  height : ℕ
  data : ℤ → ℤ → BiomeType

/-- `BiomeMap.get`: bounds-guarded read, default `OCEAN`. -/
def BiomeMap.get (m : BiomeMap) (x y : ℤ) : BiomeType :=
  if inGrid m.width m.height x y then m.data x y else .OCEAN

/-- Linear enumeration of the backing array. -/
def BiomeMap.lin (m : BiomeMap) (i : ℕ) : BiomeType :=
  m.data ((i % m.width : ℕ) : ℤ) ((i / m.width : ℕ) : ℤ)

/-- `BiomeMap.getCounts`: per-biome cell counts, in enum-code order. -/
def BiomeMap.getCounts (m : BiomeMap) : List ℕ :=
  biomeOrder.map fun b =>
    ((List.range (m.width * m.height)).filter fun i => m.lin i = b).length

/-- `class FlowMap` (`src/engine/flow.ts`): `Uint32Array` of accumulated
flow (idealized as `ℕ`) plus a river-flag array. -/
structure FlowMap where
  width : ℕ
  height : ℕ
  flow : ℤ → ℤ → ℕ
  isRiver : ℤ → ℤ → Bool

/-- `FlowMap.getFlow`: bounds-guarded read, default 0. -/
def FlowMap.getFlow (m : FlowMap) (x y : ℤ) : ℕ :=
  if inGrid m.width m.height x y then m.flow x y else 0

/-- `FlowMap.getRiver`: bounds-guarded read, default `false`. -/
def FlowMap.getRiver (m : FlowMap) (x y : ℤ) : Bool :=
  if inGrid m.width m.height x y then m.isRiver x y else false

/-- Linear enumeration of the flow array. -/
def FlowMap.linFlow (m : FlowMap) (i : ℕ) : ℕ :=
  m.flow ((i % m.width : ℕ) : ℤ) ((i / m.width : ℕ) : ℤ)

/-- Linear enumeration of the river-flag array (`Uint8Array` of 0/1). -/
def FlowMap.linRiver (m : FlowMap) (i : ℕ) : ℕ :=
  if m.isRiver ((i % m.width : ℕ) : ℤ) ((i / m.width : ℕ) : ℤ) then 1 else 0

/-! ## Height map generation (`src/engine/height.ts`) -/

/-- `hash2D`: deterministic integer hash of lattice coordinates.  The
bit-level coercions (`>>>`, `^`) and the double rounding of the large
products follow JavaScript semantics exactly. -/
def hash2D (x y : ℤ) : ℚ :=
  let n0 : ℤ := f64round (f64round (x * 374761393) + f64round (y * 668265263))
  let n1 : ℤ := toInt32 ((Nat.xor (toUint32 n0) (toUint32 n0 / 2 ^ 13) : ℕ) : ℤ)
  let n2 : ℤ := f64round (n1 * 1274126177)
  let n3 : ℕ := Nat.xor (toUint32 n2) (toUint32 n2 / 2 ^ 16)
  (n3 : ℚ) / 4294967296

/-- `valueNoise`: bilinear smoothstep interpolation between the four
lattice-corner hashes, with the seed offsetting the x coordinate. -/
def valueNoise (x y : ℚ) (seed : ℤ) : ℚ :=
  let xi : ℤ := x.floor
  let yi : ℤ := y.floor
  let xf : ℚ := x - xi
  let yf : ℚ := y - yi
  let v00 := hash2D (xi + seed) yi
  let v10 := hash2D (xi + 1 + seed) yi
  let v01 := hash2D (xi + seed) (yi + 1)
  let v11 := hash2D (xi + 1 + seed) (yi + 1)
  let sx := xf * xf * (3 - 2 * xf)
  let sy := yf * yf * (3 - 2 * yf)
  let v0 := v00 * (1 - sx) + v10 * sx
  let v1 := v01 * (1 - sx) + v11 * sx
  v0 * (1 - sy) + v1 * sy

/-- `interface HeightMapConfig`; absent optional fields take the
defaults `octaves = 4`, `persistence = 0.5`, `scale = 50`. -/
structure HeightMapConfig where
  width : ℕ
  height : ℕ
  seed : ℤ
  octaves : Option ℕ := none
  persistence : Option ℚ := none
  scale : Option ℚ := none

/-- The accumulated multi-octave noise value at one cell
(the inner octave loop of `generateHeightMap`): octave `o` samples at
frequency `2^o`, amplitude `persistence^o`, seed offset `o*1000`. -/
def octaveNoise (cfg : HeightMapConfig) (x y : ℤ) : ℚ :=
  let octaves := cfg.octaves.getD 4
  let persistence := cfg.persistence.getD (1 / 2)
  let scale := cfg.scale.getD 50
  (List.range octaves).foldl
    (fun acc o =>
      let frequency : ℚ := 2 ^ o
      let amplitude : ℚ := persistence ^ o
      let sampleX := ((x : ℚ) / scale) * frequency
      let sampleY := ((y : ℚ) / scale) * frequency
      acc + valueNoise sampleX sampleY (cfg.seed + o * 1000) * amplitude)
    0

/-- The raw (pre-normalization) grid built by the cell loop of
`generateHeightMap` (each in-bounds cell is assigned exactly once). -/
def rawHeightGrid (cfg : HeightMapConfig) : HeightMap :=
  { width := cfg.width
    height := cfg.height
    data := fun x y =>
      if inGrid cfg.width cfg.height x y then octaveNoise cfg x y else 0 }

/-- `generateHeightMap`: accumulate the octaves then min-max normalize. -/
def generateHeightMap (cfg : HeightMapConfig) : HeightMap :=
  (rawHeightGrid cfg).normalize

/-! ## Flow accumulation (`src/engine/flow.ts`) -/

/-- One entry of the cell list `{ x, y, h }` built by `calculateFlow`. -/
structure Cell where
  x : ℤ
  y : ℤ
  h : ℚ
deriving DecidableEq

/-- The row-major cell list (`y` outer, `x` inner). -/
def cellList (hm : HeightMap) : List Cell :=
  (List.range hm.height).flatMap fun y =>
    (List.range hm.width).map fun x =>
      ⟨(x : ℤ), (y : ℤ), hm.get x y⟩

/-- `cells.sort((a, b) => b.h - a.h)`: stable sort by height,
descending.  JavaScript `Array.prototype.sort` is stable, and a stable
sort under a total preorder has a unique output; `insertionSort` is
stable, so it produces that output. -/
def sortedCells (hm : HeightMap) : List Cell :=
  List.insertionSort (fun a b => b.h ≤ a.h) (cellList hm)

/-- The 8-connected neighbor offsets, in source order. -/
def neighborOffsets : List (ℤ × ℤ) :=
  [(-1, -1), (0, -1), (1, -1), (-1, 0), (1, 0), (-1, 1), (0, 1), (1, 1)]

/-- One neighbor inspection of the "find lowest neighbor" scan:
replace the candidate whenever the in-bounds neighbor is strictly
lower. -/
def lowestStep (hm : HeightMap) (c : Cell) (st : ℤ × ℤ × ℚ) (d : ℤ × ℤ) : ℤ × ℤ × ℚ :=
  let nx := c.x + d.1
  let ny := c.y + d.2
  if inGrid hm.width hm.height nx ny then
    let nh := hm.get nx ny
    if nh < st.2.2 then (nx, ny, nh) else st
  else st

/-- The "find lowest neighbor" scan, starting from the cell itself. -/
def lowestNeighbor (hm : HeightMap) (c : Cell) : ℤ × ℤ × ℚ :=
  neighborOffsets.foldl (lowestStep hm c) (c.x, c.y, c.h)

/-- One step of the accumulation walk: if a strictly lower neighbor was
found, add the current cell's accumulated flow to it
(`flow[targetIdx] += flow[idx]`). -/
def flowStep (hm : HeightMap) (f : ℤ → ℤ → ℕ) (c : Cell) : ℤ → ℤ → ℕ :=
  let t := lowestNeighbor hm c
  if t.1 = c.x ∧ t.2.1 = c.y then f
  else fun a b => if a = t.1 ∧ b = t.2.1 then f t.1 t.2.1 + f c.x c.y else f a b

/-- The walk over the height-sorted cell list. -/
def flowAccum (hm : HeightMap) (cells : List Cell) (f : ℤ → ℤ → ℕ) : ℤ → ℤ → ℕ :=
  cells.foldl (flowStep hm) f

/-- The initial flow assignment of `calculateFlow`: every (in-bounds)
cell starts at 1, its own contribution. -/
def flowInit (hm : HeightMap) : ℤ → ℤ → ℕ :=
  fun x y => if inGrid hm.width hm.height x y then 1 else 0

/-- `calculateFlow(heightMap, riverThreshold = 100)`: every cell starts
with flow 1 (self-contribution), flow is routed high-to-low along the
sorted cell list, and cells whose final flow reaches the threshold are
flagged as river. -/
def calculateFlow (hm : HeightMap) (riverThreshold : ℚ) : FlowMap :=
  let fFinal := flowAccum hm (sortedCells hm) (flowInit hm)
  { width := hm.width
    height := hm.height
    flow := fFinal
    isRiver := fun x y =>
      if inGrid hm.width hm.height x y then
        decide (riverThreshold ≤ (fFinal x y : ℚ))
      else false }

/-! ## Moisture (`src/engine/moisture.ts`) -/

/-- The square offset window `[-maxDistance, maxDistance]^2` scanned for
rivers, in source loop order (`dy` outer, `dx` inner). -/
def moistureOffsets (maxDistance : ℕ) : List (ℤ × ℤ) :=
  (List.range (2 * maxDistance + 1)).flatMap fun dy =>
    (List.range (2 * maxDistance + 1)).map fun dx =>
      ((dx : ℤ) - maxDistance, (dy : ℤ) - maxDistance)

/-- The per-cell moisture value of `calculateMoisture`: distance to the
nearest river cell within the window, turned into `1 - dist/maxDistance`,
halved above elevation 0.6 and clamped to `[0,1]`. -/
def moistureAt (hm : HeightMap) (flowMap : FlowMap) (maxDistance : ℕ) (x y : ℤ) : ℚ :=
  let closestRiverDist : ℚ :=
    (moistureOffsets maxDistance).foldl
      (fun closest d =>
        let nx := x + d.2
        let ny := y + d.1
        if inGrid hm.width hm.height nx ny ∧ flowMap.getRiver nx ny then
          let dist := jsSqrt ((d.2 : ℚ) * d.2 + (d.1 : ℚ) * d.1)
          if dist < closest then dist else closest
        else closest)
      (maxDistance : ℚ)
  let moistureValue := 1 - closestRiverDist / maxDistance
  let elevation := hm.get x y
  let moistureValue := if (6 : ℚ) / 10 < elevation then moistureValue * (1 / 2) else moistureValue
  clamp01 moistureValue

/-- `calculateMoisture(heightMap, flowMap, maxDistance = 15)` (each
in-bounds cell is assigned exactly once by the loop). -/
def calculateMoisture (hm : HeightMap) (flowMap : FlowMap) (maxDistance : ℕ) : MoistureMap :=
  { width := hm.width
    height := hm.height
    data := fun x y =>
      if inGrid hm.width hm.height x y then moistureAt hm flowMap maxDistance x y
      else 0 }

/-! ## Biome classification (`src/engine/biome.ts`) -/

/-- `classifyBiome`: ordered threshold cascade over (height, moisture);
height thresholds are evaluated before moisture thresholds. -/
def classifyBiome (height moisture : ℚ) : BiomeType :=
  if height < 3 / 10 then .OCEAN
  else if height < 35 / 100 then .BEACH
  else if 8 / 10 < height then .SNOW
  else if 65 / 100 < height then .MOUNTAIN
  else if moisture < 3 / 10 then .DESERT
  else if 6 / 10 < moisture then .FOREST
  else .PLAINS

/-- `generateBiomeMap` (each in-bounds cell is assigned exactly once;
the zero-initialized out-of-bounds region stays `OCEAN`). -/
def generateBiomeMap (hm : HeightMap) (mm : MoistureMap) : BiomeMap :=
  { width := hm.width
    height := hm.height
    data := fun x y =>
      if inGrid hm.width hm.height x y then classifyBiome (hm.get x y) (mm.get x y)
      else .OCEAN }

/-! ## Vegetation (`src/engine/vegetation.ts`, "Scarcity v1") -/

/-- `initializeVegetation(biomeMap, moistureMap)`: start below the biome
maximum, deterministically varied by moisture (writes go through the
clamping `set`, rendered pointwise since cells are independent). -/
def initializeVegetation (biomeMap : BiomeMap) (moistureMap : MoistureMap) : VegetationMap :=
  { width := biomeMap.width
    height := biomeMap.height
    data := fun x y =>
      if inGrid biomeMap.width biomeMap.height x y then
        let biome := biomeMap.get x y
        let maxVeg := MAX_DENSITY biome
        if maxVeg ≤ 0 then clamp01 0
        else
          let moisture := moistureMap.get x y
          let initFrac := INITIAL_BASE + INITIAL_MOISTURE_BONUS * moisture
          clamp01 (min maxVeg (maxVeg * initFrac))
      else 0 }

/-- `updateVegetation(vegetation, biomeMap, moistureMap, tick)`:
logistic regrowth on the strided one-quarter-of-rows schedule
(`y = tick % 4, tick % 4 + 4, ...`), growth scaled by the stride.  Each
selected cell is written at most once and reads only itself and static
layers, so the loop is rendered pointwise; writes go through the
clamping `set`. -/
def updateVegetationData (vegetation : VegetationMap) (biomeMap : BiomeMap)
    (moistureMap : MoistureMap) (tick : ℕ) (x y : ℤ) : ℚ :=
  let stride : ℕ := 4
  let startY : ℕ := tick % stride
  if inGrid vegetation.width vegetation.height x y ∧ y % (stride : ℤ) = (startY : ℤ) then
    let biome := biomeMap.get x y
    let maxVeg := MAX_DENSITY biome
    if maxVeg ≤ 0 then vegetation.data x y
    else
      let moisture := moistureMap.get x y
      let current := vegetation.get x y
      let base := GROWTH_RATE biome
      let moistureFactor := 1 / 4 + 3 / 4 * moisture
      let deficit := 1 - current / max (1 / 1000000) maxVeg
      let regrowth := base * moistureFactor * deficit * (stride : ℚ)
      if 0 < regrowth ∧ current < maxVeg then
        clamp01 (min maxVeg (current + regrowth))
      else vegetation.data x y
  else vegetation.data x y

/-- The assembled map after one `updateVegetation` call. -/
def updateVegetation (vegetation : VegetationMap) (biomeMap : BiomeMap)
    (moistureMap : MoistureMap) (tick : ℕ) : VegetationMap :=
  { vegetation with data := updateVegetationData vegetation biomeMap moistureMap tick }

/-! ## Agent (`src/engine/agent.ts`) -/

/-- `interface AgentConfig`. -/
structure AgentConfig where
  id : Option ℕ := none
  x : ℚ
  y : ℚ
  hunger : Option ℚ := none
  speed : Option ℚ := none
  senseRadius : Option ℚ := none
  energy : Option ℚ := none

/-- `class Agent`; ids are the natural numbers handed out by the world
counter. -/
structure Agent where
  id : ℕ
  x : ℚ
  y : ℚ
  hunger : ℚ
  energy : ℚ
  speed : ℚ
  senseRadius : ℚ
  state : AgentState
  maxHunger : ℚ
  maxEnergy : ℚ
  reproCooldown : ℕ
  deathCause : Option String
deriving DecidableEq

/-- The `Agent` constructor with its field defaults. -/
def mkAgent (cfg : AgentConfig) : Agent :=
  { id := cfg.id.getD 0
    x := cfg.x
    y := cfg.y
    hunger := cfg.hunger.getD 0
    energy := cfg.energy.getD 0
    speed := cfg.speed.getD CFG_SPEED
    senseRadius := cfg.senseRadius.getD CFG_SENSE_RADIUS
    state := .IDLE
    maxHunger := CFG_MAX_HUNGER
    maxEnergy := CFG_MAX_ENERGY
    reproCooldown := 0
    deathCause := none }

/-- `Agent.kill(cause)`: record the cause and enter `DEAD`. -/
def Agent.kill (a : Agent) (cause : String) : Agent :=
  { a with deathCause := some cause, state := .DEAD }

/-- `Agent.isDead()`. -/
def Agent.isDead (a : Agent) : Bool := a.state = .DEAD

/-- `Agent.move(dx, dy)`: displace and pay the hunger cost
`dist * MOVE_COST * speed`. -/
def Agent.move (a : Agent) (dx dy : ℚ) : Agent :=
  { a with
    x := a.x + dx
    y := a.y + dy
    hunger := a.hunger + jsSqrt (dx * dx + dy * dy) * CFG_MOVE_COST * a.speed }

/-- The values taken by the JavaScript loop counter
`for (let d = -r; d <= r; d++)` for a (possibly fractional, possibly
negative) sense radius `r`. -/
def scanOffsets (r : ℚ) : List ℚ :=
  if r < 0 then []
  else (List.range ((2 * r).floor.toNat + 1)).map fun k => -r + (k : ℚ)

/-- Typed-array lookup at a possibly non-integral index: in JavaScript
`data[i]` is `undefined` off the integer grid, and the foraging loop
never selects such a candidate (its score is `NaN`); returning 0 has
the identical effect there, via the `veg <= 0.02` guard. -/
def VegetationMap.getNum (m : VegetationMap) (x y : ℚ) : ℚ :=
  if x.den = 1 ∧ y.den = 1 then m.get x.num y.num else 0

/-- `handleIdle`: switch to foraging when hungry, otherwise take a
small random step with probability 0.1. -/
def Agent.handleIdle (a : Agent) (rng : SeededRNG) : Agent × SeededRNG :=
  if 30 < a.hunger then ({ a with state := .FORAGING }, rng)
  else
    let n := rng.next
    if n.1 < 1 / 10 then
      let an := n.2.rangeQ 0 (jsPI * 2)
      (a.move (jsCos an.1 * (a.speed * (1 / 2))) (jsSin an.1 * (a.speed * (1 / 2))), an.2)
    else (a, n.2)

/-- The scored scan of the sense-radius window in `handleForaging`:
fold over `(dy, dx)` in loop order carrying `(bestX, bestY, bestScore)`,
scoring in-bounds candidates with enough vegetation by
`veg / (1 + dist)`. -/
def forageScan (a : Agent) (veg : VegetationMap) (cx cy : ℤ) : ℚ × ℚ × ℚ :=
  ((scanOffsets a.senseRadius).flatMap fun dy =>
      (scanOffsets a.senseRadius).map fun dx => (dx, dy)).foldl
    (fun best d =>
      let nx := (cx : ℚ) + d.1
      let ny := (cy : ℚ) + d.2
      if nx < 0 ∨ (veg.width : ℚ) ≤ nx ∨ ny < 0 ∨ (veg.height : ℚ) ≤ ny then best
      else
        let v := veg.getNum nx ny
        if v ≤ 2 / 100 then best
        else
          let dist := jsSqrt (d.1 * d.1 + d.2 * d.2)
          let score := v / (1 + dist)
          if best.2.2 < score then (nx, ny, score) else best)
    ((cx : ℚ), (cy : ℚ), 0)

/-- `handleForaging`: eat here if the current tile is adequate, else
move one step toward the best-scoring cell of the window (or roam
randomly when none qualifies), switching to `EATING` on arrival. -/
def Agent.handleForaging (a : Agent) (veg : VegetationMap) (rng : SeededRNG) :
    Agent × SeededRNG :=
  let cx := a.x.floor
  let cy := a.y.floor
  let hereVeg := veg.get cx cy
  if 12 / 100 ≤ hereVeg then ({ a with state := .EATING }, rng)
  else
    let best := forageScan a veg cx cy
    if 0 < best.2.2 then
      let dx := best.1 - a.x
      let dy := best.2.1 - a.y
      let dist := jsSqrt (dx * dx + dy * dy)
      if dist < 1 / 2 then ({ a with state := .EATING }, rng)
      else (a.move (dx / dist * a.speed) (dy / dist * a.speed), rng)
    else
      let an := rng.rangeQ 0 (jsPI * 2)
      (a.move (jsCos an.1 * a.speed) (jsSin an.1 * a.speed), an.2)

/-- `handleEating`: consume up to 0.2 from the current cell, convert
the amount actually consumed into hunger relief and stored energy. -/
def Agent.handleEating (a : Agent) (veg : VegetationMap) : Agent × VegetationMap :=
  let cellX := a.x.floor
  let cellY := a.y.floor
  let vegAvailable := veg.get cellX cellY
  if vegAvailable < 5 / 100 then ({ a with state := .FORAGING }, veg)
  else
    let c := veg.consume cellX cellY (2 / 10)
    let a1 := { a with hunger := a.hunger - c.1 * 15, energy := a.energy + c.1 * 20 }
    if a1.hunger ≤ 0 then ({ a1 with hunger := 0, state := .IDLE }, c.2)
    else (a1, c.2)

/-- The opening bookkeeping of `Agent.update`: cooldown decrement,
energy decay, hunger increase. -/
def Agent.stepVitals (a : Agent) : Agent :=
  let a1 := { a with reproCooldown := if 0 < a.reproCooldown then a.reproCooldown - 1 else a.reproCooldown }
  let a2 := { a1 with energy := max 0 (a1.energy - CFG_ENERGY_DECAY) }
  { a2 with hunger := a2.hunger + CFG_HUNGER_RATE }

/-- The `switch (this.state)` dispatch of `Agent.update`
(`REPRODUCING` is a transition state handled by the world; `DEAD` never
reaches the switch). -/
def Agent.dispatchState (a : Agent) (veg : VegetationMap) (rng : SeededRNG) :
    Agent × VegetationMap × SeededRNG :=
  match a.state with
  | .IDLE => let p := a.handleIdle rng; (p.1, veg, p.2)
  | .FORAGING => let p := a.handleForaging veg rng; (p.1, veg, p.2)
  | .EATING => let p := a.handleEating veg; (p.1, p.2, rng)
  | .REPRODUCING => (a, veg, rng)
  | .DEAD => (a, veg, rng)

/-- The Scarcity v1 reproduction gate: only from `IDLE` with the
cooldown elapsed, and only when well-fed, energetic and locally
abundant, all at once. -/
def Agent.applyReproGate (a : Agent) (veg : VegetationMap) : Agent :=
  if a.state = .IDLE ∧ a.reproCooldown = 0 then
    let cellX := a.x.floor
    let cellY := a.y.floor
    let localVeg := veg.get cellX cellY
    if a.hunger < REPRO_HUNGER_THRESHOLD ∧ REPRO_ENERGY_REQUIRED ≤ a.energy ∧
        REPRO_MIN_LOCAL_VEG ≤ localVeg then
      { a with state := .REPRODUCING }
    else a
  else a

/-- The closing clamps of `Agent.update`: position to the grid bounds,
energy to `[0, maxEnergy]`. -/
def Agent.clampBounds (a : Agent) (veg : VegetationMap) : Agent :=
  { a with
    x := max 0 (min ((veg.width : ℚ) - 1) a.x)
    y := max 0 (min ((veg.height : ℚ) - 1) a.y)
    energy := max 0 (min a.maxEnergy a.energy) }

/-- `Agent.update(vegetation, rng)`: early return when dead; vitals;
hard starvation death; state dispatch; reproduction gate; clamps. -/
def Agent.update (a : Agent) (veg : VegetationMap) (rng : SeededRNG) :
    Agent × VegetationMap × SeededRNG :=
  if a.state = .DEAD then (a, veg, rng)
  else
    let a1 := a.stepVitals
    if a1.maxHunger ≤ a1.hunger then (a1.kill "Starvation", veg, rng)
    else
      let d := a1.dispatchState veg rng
      let a2 := d.1.applyReproGate d.2.1
      (a2.clampBounds d.2.1, d.2.1, d.2.2)

/-- The `mutate` closure of `Agent.reproduce`: with probability
`MUTATION_RATE`, shift the trait by a bounded random delta, floored at
0.1. -/
def mutateTrait (val : ℚ) (rng : SeededRNG) : ℚ × SeededRNG :=
  let n := rng.next
  if n.1 < REPRO_MUTATION_RATE then
    let d := n.2.rangeQ (-REPRO_MUTATION_AMOUNT) REPRO_MUTATION_AMOUNT
    (max (1 / 10) (val + d.1), d.2)
  else (val, n.2)

/-- `Agent.reproduce(nextId, rng)`: deduct the energy cost, set the
cooldown, return to `IDLE`, and produce the offspring (id `nextId`,
parent position, starting hunger 30, zero energy, mutated traits).
Returns (mutated parent, offspring, advanced rng). -/
def Agent.reproduce (a : Agent) (nextId : ℕ) (rng : SeededRNG) :
    Agent × Agent × SeededRNG :=
  let parent := { a with
    energy := max 0 (a.energy - REPRO_ENERGY_REQUIRED)
    reproCooldown := REPRO_COOLDOWN_TICKS
    state := AgentState.IDLE }
  let sp := mutateTrait a.speed rng
  let sr := mutateTrait a.senseRadius sp.2
  let offspring := mkAgent
    { id := some nextId
      x := a.x
      y := a.y
      hunger := some 30
      energy := some 0
      speed := some sp.1
      senseRadius := some sr.1 }
  (parent, offspring, sr.2)

/-! ## Checksum engine (`src/engine/checksum.ts`, Phase 2 revision) -/

/-- `Number.prototype.toFixed(digits)` on an idealized exact value:
decimal rendering with the given number of fraction digits, rounding
half away from zero. -/
def toFixedStr (digits : ℕ) (q : ℚ) : String :=
  let scaled := q * (10 : ℚ) ^ digits
  let n : ℤ := if 0 ≤ scaled then (scaled + 1 / 2).floor else -((-scaled + 1 / 2).floor)
  let a := n.natAbs
  let ip := a / 10 ^ digits
  let fp := a % 10 ^ digits
  let fpRaw := toString fp
  let fpStr := String.mk (List.replicate (digits - fpRaw.length) '0') ++ fpRaw
  (if n < 0 then "-" else "") ++ toString ip ++ "." ++ fpStr

/-- A base-36 digit character (`0`-`9`, `a`-`z`). -/
def digit36 (d : ℕ) : Char :=
  if d < 10 then Char.ofNat (48 + d) else Char.ofNat (87 + d)

/-- Fuel-driven accumulator for `Number.prototype.toString(36)` (the
fuel always suffices; structural so that it reduces in the kernel). -/
def toBase36Aux : ℕ → ℕ → List Char → List Char
  | 0, _, acc => acc
  | fuel + 1, n, acc =>
    if n = 0 then acc else toBase36Aux fuel (n / 36) (digit36 (n % 36) :: acc)

/-- `(n >>> 0).toString(36)` for an unsigned 32-bit value. -/
def toBase36 (n : ℕ) : String :=
  if n = 0 then "0" else String.mk (toBase36Aux n n [])

/-- One step of the FNV-1a loop: `hash ^= c; hash = imul(hash, 16777619)`
(all 32-bit, so the state is kept as a value mod 2^32). -/
def fnv1aStep (h : ℕ) (c : Char) : ℕ :=
  Nat.xor h c.toNat * 16777619 % U32

/-- `fnv1aHash(data)`: FNV-1a over the character codes, rendered in
base 36. -/
def fnv1a (s : String) : String :=
  toBase36 (s.data.foldl fnv1aStep 2166136261)

/-- The sampled indices `0, step, 2*step, ...` below `len` walked by
`hashTypedArray`. -/
def hashSampleIdx (len step : ℕ) : List ℕ :=
  (List.range ((len + step - 1) / step)).map (· * step)

/-- `hashTypedArray(data)`: reduce the (sampled) array to
`(length, sum, position-weighted sum)` and hash the rendering. -/
def hashTypedArrayQ (len : ℕ) (get : ℕ → ℚ) : String :=
  let step := max 1 (len / 10000)
  let idxs := hashSampleIdx len step
  let sum := (idxs.map get).sum
  let weightedSum := (idxs.map fun i => get i * ((i : ℚ) + 1)).sum
  fnv1a (toString len ++ ":" ++ toFixedStr 6 sum ++ ":" ++ toFixedStr 6 weightedSum)

/-- `checksumHeightMap`. -/
def checksumHeightMap (hm : HeightMap) : String :=
  let dimensions := toString hm.width ++ "x" ++ toString hm.height
  let dataHash := hashTypedArrayQ (hm.width * hm.height) hm.lin
  fnv1a ("height:" ++ dimensions ++ ":" ++ dataHash)

/-- `checksumFlowMap`: flow-value digest plus river-flag digest. -/
def checksumFlowMap (fm : FlowMap) : String :=
  let dimensions := toString fm.width ++ "x" ++ toString fm.height
  let flowHash := hashTypedArrayQ (fm.width * fm.height) fun i => (fm.linFlow i : ℚ)
  let riverHash := hashTypedArrayQ (fm.width * fm.height) fun i => (fm.linRiver i : ℚ)
  fnv1a ("flow:" ++ dimensions ++ ":" ++ flowHash ++ ":" ++ riverHash)

/-- `checksumMoistureMap`. -/
def checksumMoistureMap (mm : MoistureMap) : String :=
  let dimensions := toString mm.width ++ "x" ++ toString mm.height
  let dataHash := hashTypedArrayQ (mm.width * mm.height) mm.lin
  fnv1a ("moisture:" ++ dimensions ++ ":" ++ dataHash)

/-- `checksumBiomeMap`: histogram of per-biome counts, order-fixed. -/
def checksumBiomeMap (bm : BiomeMap) : String :=
  let dimensions := toString bm.width ++ "x" ++ toString bm.height
  let countsStr := String.intercalate "-" (bm.getCounts.map toString)
  fnv1a ("biome:" ++ dimensions ++ ":" ++ countsStr)

/-- `checksumVegetation`. -/
def checksumVegetation (vm : VegetationMap) : String :=
  let dimensions := toString vm.width ++ "x" ++ toString vm.height
  let dataHash := hashTypedArrayQ (vm.width * vm.height) vm.lin
  fnv1a ("vegetation:" ++ dimensions ++ ":" ++ dataHash)

/-- JavaScript template rendering of a raw number (idealization of the
double-to-string conversion: exact for integers, a fixed injective
rendering otherwise). -/
def qRepr (q : ℚ) : String :=
  if q.den = 1 then toString q.num else toString q.num ++ "/" ++ toString q.den

/-- `checksumAgent`: the per-agent field digest
(id, x, y, hunger, energy, speed, senseRadius, reproCooldown, state). -/
def checksumAgent (a : Agent) : String :=
  fnv1a (toString a.id ++ "," ++ toFixedStr 3 a.x ++ "," ++ toFixedStr 3 a.y ++ "," ++
    toFixedStr 3 a.hunger ++ "," ++ toFixedStr 3 a.energy ++ "," ++ qRepr a.speed ++ "," ++
    qRepr a.senseRadius ++ "," ++ toString a.reproCooldown ++ "," ++ a.state.str)

/-- `checksumAgents`: sort a copy by id, concatenate the per-agent
digests, hash. -/
def checksumAgents (l : List Agent) : String :=
  if l.length = 0 then fnv1a "agents:0"
  else
    let sorted := List.insertionSort (fun a b => a.id ≤ b.id) l
    fnv1a ("agents:" ++ toString l.length ++ ":" ++
      String.intercalate ":" (sorted.map checksumAgent))

/-- The rolling string hash of `World.getChecksum`
(`hash = ((hash << 5) - hash) + charCode; hash &= hash`, 32-bit). -/
def jsStrHash (s : String) : ℤ :=
  s.data.foldl (fun h c => toInt32 (toInt32 (h * 32) - h + (c.toNat : ℤ))) 0

/-! ## World (`src/engine/world.ts`) -/

/-- `interface WorldConfig`; defaults: 256 x 256, population 10. -/
structure WorldConfig where
  width : Option ℕ := none
  height : Option ℕ := none
  seed : ℤ
  initialPopulation : Option ℕ := none
  heightMap : Option HeightMap := none

/-- `interface WorldChecksum`. -/
structure WorldChecksum where
  tick : ℕ
  seed : ℤ
  height : String
  flow : String
  moisture : String
  biome : String
  vegetation : String
  agents : String
  composite : String
deriving DecidableEq

/-- `class World`.  The `HistoryLog` wrapper is modelled by its
append-only `events` list. -/
structure World where
  width : ℕ
  height : ℕ
  seed : ℤ
  initialPopulation : ℕ
  isRealTerrain : Bool
  heightMap : HeightMap
  flowMap : FlowMap
  moistureMap : MoistureMap
  biomeMap : BiomeMap
  vegetationMap : VegetationMap
  agents : List Agent
  nextAgentId : ℕ
  rng : SeededRNG
  history : List HistoryEvent
  tickCount : ℕ
  externalHeightMap : Option HeightMap

/-- The rejection-sampling spawn loop of `World.generate`: up to 1000
attempts, keep drawing positions until the population target is met,
accepting only non-ocean tiles and assigning sequential ids. -/
def spawnLoop (bm : BiomeMap) (w h pop : ℕ) :
    ℕ → List Agent → ℕ → SeededRNG → List Agent × ℕ × SeededRNG
  | 0, agents, nid, rng => (agents, nid, rng)
  | fuel + 1, agents, nid, rng =>
    if agents.length < pop then
      let px := rng.rangeQ 0 ((w : ℚ) - 1)
      let py := px.2.rangeQ 0 ((h : ℚ) - 1)
      if bm.get px.1.floor py.1.floor ≠ .OCEAN then
        spawnLoop bm w h pop fuel
          (agents ++ [mkAgent { id := some nid, x := px.1, y := py.1 }]) (nid + 1) py.2
      else spawnLoop bm w h pop fuel agents nid py.2
    else (agents, nid, rng)

/-- The `WORLD_GENERATE` event logged by `World.generate`. -/
def generateEvent (cfg : WorldConfig) : HistoryEvent :=
  let terrainType :=
    match cfg.heightMap with
    | some hm =>
      match hm.realTerrainMetadata with
      | some md => "Real Terrain: " ++ md.locationName
      | none => "Procedural Seed: " ++ toString cfg.seed
    | none => "Procedural Seed: " ++ toString cfg.seed
  ⟨0, .WORLD_GENERATE, none, none, some terrainType⟩

/-- `new World(config)` followed by the private `generate()`: fresh
RNG from the seed, cleared history, the layer pipeline in dependency
order, then initial population spawning. -/
def mkWorld (cfg : WorldConfig) : World :=
  let width := cfg.width.getD 256
  let height := cfg.height.getD 256
  let pop := cfg.initialPopulation.getD 10
  let rng0 := SeededRNG.mk32 cfg.seed
  let heightMap :=
    match cfg.heightMap with
    | some hm => hm
    | none => generateHeightMap ⟨width, height, cfg.seed, none, none, none⟩
  let flowMap := calculateFlow heightMap 100
  let moistureMap := calculateMoisture heightMap flowMap 15
  let biomeMap := generateBiomeMap heightMap moistureMap
  let vegetationMap := initializeVegetation biomeMap moistureMap
  let sp := spawnLoop biomeMap width height pop 1000 [] 1 rng0
  { width := width
    height := height
    seed := cfg.seed
    initialPopulation := pop
    isRealTerrain := cfg.heightMap.isSome
    heightMap := heightMap
    flowMap := flowMap
    moistureMap := moistureMap
    biomeMap := biomeMap
    vegetationMap := vegetationMap
    agents := sp.1
    nextAgentId := sp.2.1
    rng := sp.2.2
    history := [generateEvent cfg]
    tickCount := 0
    externalHeightMap := cfg.heightMap }

/-- The `AGENT_DEATH` event logged by `World.tick`. -/
def deathEvent (tick : ℕ) (a : Agent) : HistoryEvent :=
  ⟨tick, .AGENT_DEATH, some a.x, some a.y, some "Starvation"⟩

/-- The `AGENT_SPAWN` event logged by `World.tick`. -/
def spawnEvent (tick : ℕ) (off : Agent) (parentId : ℕ) : HistoryEvent :=
  ⟨tick, .AGENT_SPAWN, some off.x, some off.y, some ("Parent: " ++ toString parentId)⟩

/-- The state threaded through the roster loop of `World.tick`. -/
structure TickResult where
  agents : List Agent
  veg : VegetationMap
  rng : SeededRNG
  events : List HistoryEvent
  nextId : ℕ

/-- The roster loop of `World.tick`: update each agent in order; a dead
agent returns carcass nutrients to its cell, is logged and dropped; a
reproducing agent spawns a logged offspring (pushed before the mutated
parent); everyone else carries over. -/
def processAgents : List Agent → VegetationMap → SeededRNG → ℕ → ℕ → TickResult
  | [], veg, rng, _, nid => ⟨[], veg, rng, [], nid⟩
  | a :: rest, veg, rng, tk, nid =>
    let u := a.update veg rng
    if u.1.isDead then
      let fx := u.1.x.floor
      let fy := u.1.y.floor
      let veg2 := u.2.1.set fx fy (u.2.1.get fx fy + 1 / 2)
      let r := processAgents rest veg2 u.2.2 tk nid
      ⟨r.agents, r.veg, r.rng, deathEvent tk u.1 :: r.events, r.nextId⟩
    else if u.1.state = .REPRODUCING then
      let rep := u.1.reproduce nid u.2.2
      let r := processAgents rest u.2.1 rep.2.2 tk (nid + 1)
      ⟨rep.2.1 :: rep.1 :: r.agents, r.veg, r.rng,
        spawnEvent tk rep.2.1 u.1.id :: r.events, r.nextId⟩
    else
      let r := processAgents rest u.2.1 u.2.2 tk nid
      ⟨u.1 :: r.agents, r.veg, r.rng, r.events, r.nextId⟩

/-- `World.tick()`: strided vegetation update, roster sorted by id for
deterministic order, the roster loop, then the tick counter.  (The
`Math.random` tripwire installed around the body needs no model: the
embedding has no ambient randomness to guard against.) -/
def worldTick (w : World) : World :=
  let veg1 := updateVegetation w.vegetationMap w.biomeMap w.moistureMap w.tickCount
  let sorted := List.insertionSort (fun a b => a.id ≤ b.id) w.agents
  let r := processAgents sorted veg1 w.rng w.tickCount w.nextAgentId
  { w with
    vegetationMap := r.veg
    agents := r.agents
    rng := r.rng
    nextAgentId := r.nextId
    history := w.history ++ r.events
    tickCount := w.tickCount + 1 }

/-- `World.getChecksum()`: per-layer hashes plus the composite rolling
hash over `tick`, `seed` and the layer hashes. -/
def World.getChecksum (w : World) : WorldChecksum :=
  let heightHash := checksumHeightMap w.heightMap
  let flowHash := checksumFlowMap w.flowMap
  let moistureHash := checksumMoistureMap w.moistureMap
  let biomeHash := checksumBiomeMap w.biomeMap
  let vegetationHash := checksumVegetation w.vegetationMap
  let agentsHash := checksumAgents w.agents
  let composite := String.intercalate "|"
    ["tick:" ++ toString w.tickCount, "seed:" ++ toString w.seed,
      heightHash, flowHash, moistureHash, biomeHash, vegetationHash, agentsHash]
  { tick := w.tickCount
    seed := w.seed
    height := heightHash
    flow := flowHash
    moisture := moistureHash
    biome := biomeHash
    vegetation := vegetationHash
    agents := agentsHash
    composite := toBase36 (toUint32 (jsStrHash composite)) }

/-! ## Serialization (`src/engine/serialization.ts`)

The base64 codec of the typed-array backing bytes is a bijection on
byte arrays (`encodeTypedArray` / `decodeToFloat32Array` /
`decodeToUint8Array` round-trip exactly); an encoded layer is therefore
idealized as the exact sequence of its `width * height` stored values,
kept as a bounds-restricted function. -/

/-- `SERIALIZATION_VERSION`. -/
def SERIALIZATION_VERSION : ℕ := 1

/-- Restriction of a scalar grid to its stored (in-bounds) values. -/
def restrictGrid (w h : ℕ) (f : ℤ → ℤ → ℚ) : ℤ → ℤ → ℚ :=
  fun x y => if inGrid w h x y then f x y else 0

/-- Restriction of the biome grid to its stored (in-bounds) values
(the `Uint8Array` zero is `OCEAN`). -/
def restrictGridB (w h : ℕ) (f : ℤ → ℤ → BiomeType) : ℤ → ℤ → BiomeType :=
  fun x y => if inGrid w h x y then f x y else .OCEAN

/-- `interface SerializedAgent` (the string-valued `state` round-trips
verbatim, so it is kept as the enum). -/
structure SerializedAgent where
  id : ℕ
  x : ℚ
  y : ℚ
  hunger : ℚ
  energy : ℚ
  speed : ℚ
  senseRadius : ℚ
  state : AgentState
  maxHunger : ℚ
  maxEnergy : ℚ
  reproCooldown : ℕ

/-- `interface SerializedWorld`. -/
structure SerializedWorld where
  version : ℕ
  seed : ℤ
  tick : ℕ
  width : ℕ
  height : ℕ
  population : ℕ
  nextAgentId : ℕ
  isRealTerrain : Bool
  locationName : Option String
  bounds : Option GeoBounds
  heightMapData : ℤ → ℤ → ℚ
  moistureMapData : ℤ → ℤ → ℚ
  biomeMapData : ℤ → ℤ → BiomeType
  vegetationMapData : ℤ → ℤ → ℚ
  agents : List SerializedAgent
  history : List HistoryEvent
  rngState : ℕ

/-- The per-agent record written by `serializeWorld`. -/
def serializeAgent (a : Agent) : SerializedAgent :=
  ⟨a.id, a.x, a.y, a.hunger, a.energy, a.speed, a.senseRadius, a.state,
    a.maxHunger, a.maxEnergy, a.reproCooldown⟩

/-- `serializeWorld(world)`. -/
def serializeWorld (w : World) : SerializedWorld :=
  { version := SERIALIZATION_VERSION
    seed := w.seed
    tick := w.tickCount
    width := w.width
    height := w.height
    population := w.agents.length
    nextAgentId := w.nextAgentId
    isRealTerrain := w.isRealTerrain
    locationName := w.heightMap.realTerrainMetadata.map RealTerrainMetadata.locationName
    bounds := w.heightMap.realTerrainMetadata.map RealTerrainMetadata.bounds
    heightMapData := restrictGrid w.heightMap.width w.heightMap.height w.heightMap.data
    moistureMapData := restrictGrid w.moistureMap.width w.moistureMap.height w.moistureMap.data
    biomeMapData := restrictGridB w.biomeMap.width w.biomeMap.height w.biomeMap.data
    vegetationMapData := restrictGrid w.vegetationMap.width w.vegetationMap.height w.vegetationMap.data
    agents := w.agents.map serializeAgent
    history := w.history
    rngState := w.rng.getState }

/-- The agent reconstruction of `deserializeWorld`: the constructor with
the stored fields, then the directly restored `state`, `maxHunger`,
`maxEnergy` and `reproCooldown`. -/
def restoreAgent (a : SerializedAgent) : Agent :=
  let base := mkAgent
    { id := some a.id
      x := a.x
      y := a.y
      hunger := some a.hunger
      speed := some a.speed
      senseRadius := some a.senseRadius
      energy := some a.energy }
  { base with
    state := a.state
    maxHunger := a.maxHunger
    maxEnergy := a.maxEnergy
    reproCooldown := a.reproCooldown }

/-- `deserializeWorld(data)`: reject a mismatched version outright;
rebuild each layer from its stored bytes; recompute the flow map from
the restored height layer (flow is derived, never persisted); restore
the RNG via `setState` (never by reseeding); replay the stored history
events in order. -/
def deserializeWorld (d : SerializedWorld) : Except String World :=
  if d.version ≠ SERIALIZATION_VERSION then
    Except.error ("Unsupported serialization version: " ++ toString d.version)
  else
    let heightMap : HeightMap :=
      { width := d.width
        height := d.height
        data := d.heightMapData
        realTerrainMetadata :=
          if d.locationName.isSome ∨ d.bounds.isSome then
            some
              { locationName := d.locationName.getD "Unknown"
                minElevation := 0
                maxElevation := 1
                bounds := d.bounds.getD ⟨0, 0, 0, 0⟩ }
          else none }
    Except.ok
      { width := d.width
        height := d.height
        seed := d.seed
        initialPopulation := d.agents.length
        isRealTerrain := d.isRealTerrain
        heightMap := heightMap
        flowMap := calculateFlow heightMap 100
        moistureMap := { width := d.width, height := d.height, data := d.moistureMapData }
        biomeMap := { width := d.width, height := d.height, data := d.biomeMapData }
        vegetationMap := { width := d.width, height := d.height, data := d.vegetationMapData }
        agents := d.agents.map restoreAgent
        nextAgentId := d.nextAgentId
        rng := (SeededRNG.mk32 d.seed).setState d.rngState
        history := d.history.foldl (fun evs e => evs ++ [e]) []
        tickCount := d.tick
        externalHeightMap := none }

/-- Well-formedness of a `World` value: the layer grids carry the world
dimensions, the flow map is the one derived from the height layer, and
no rostered agent carries a death record.  Every world produced by the
constructor, by ticking or by deserialization satisfies this; it is the
standing hypothesis of the round-trip claim. -/
def World.wellFormed (w : World) : Prop :=
  w.heightMap.width = w.width ∧ w.heightMap.height = w.height ∧
  w.moistureMap.width = w.width ∧ w.moistureMap.height = w.height ∧
  w.biomeMap.width = w.width ∧ w.biomeMap.height = w.height ∧
  w.vegetationMap.width = w.width ∧ w.vegetationMap.height = w.height ∧
  w.flowMap = calculateFlow w.heightMap 100 ∧
  ∀ a ∈ w.agents, a.deathCause = none

/-! ## Shared concrete fixtures used by witnesses -/

/-- A 1 x 1 externally supplied flat height layer (as accepted by
`loadRealTerrain`), used to build small concrete worlds. -/
def bdHeight : HeightMap := ⟨1, 1, fun _ _ => 33 / 100, none⟩

/-- The flow layer derived from `bdHeight` by the pipeline. -/
def bdFlow : FlowMap := calculateFlow bdHeight 100

/-- The moisture layer derived from `bdHeight` by the pipeline. -/
def bdMoist : MoistureMap := calculateMoisture bdHeight bdFlow 15

/-- The biome layer derived from `bdHeight` by the pipeline (the single
cell has height 0.33, hence biome `BEACH`). -/
def bdBiome : BiomeMap := generateBiomeMap bdHeight bdMoist

/-- The vegetation layer derived by the pipeline. -/
def bdVeg : VegetationMap := initializeVegetation bdBiome bdMoist

/-- An agent standing on the beach cell that is about to starve: its
hunger 99.95 reaches the maximum 100 on the next update. -/
def bdAgent : Agent := ⟨1, 0, 0, 9995 / 100, 0, 1, 5, .IDLE, 100, 100, 0, none⟩

/-- The 1 x 1 world holding `bdAgent`: all layers are the pipeline
layers over `bdHeight`, as after `loadRealTerrain(bdHeight)` with the
agent having hungered for a while. -/
def beachDeathWorld : World :=
  ⟨1, 1, 7, 1, true, bdHeight, bdFlow, bdMoist, bdBiome, bdVeg, [bdAgent], 2,
    SeededRNG.mk32 7, [], 0, some bdHeight⟩

/-- The small configuration (1 x 1 grid, empty population) used by the
closed witnesses. -/
def tinyCfg : WorldConfig :=
  { seed := 0, width := some 1, height := some 1, initialPopulation := some 0 }

/-! ## Claim theorems -/

/-- C8: out-of-bounds reads on every grid layer are total and return
the documented defaults: 0 for the scalar layers and the flow value,
`false` for the river flag, `OCEAN` for the biome. -/
theorem claim_C8_oob_defaults :
    (∀ (m : HeightMap) (x y : ℤ), ¬ inGrid m.width m.height x y → m.get x y = 0) ∧
    (∀ (m : MoistureMap) (x y : ℤ), ¬ inGrid m.width m.height x y → m.get x y = 0) ∧
    (∀ (m : VegetationMap) (x y : ℤ), ¬ inGrid m.width m.height x y → m.get x y = 0) ∧
    (∀ (m : FlowMap) (x y : ℤ), ¬ inGrid m.width m.height x y →
      m.getFlow x y = 0 ∧ m.getRiver x y = false) ∧
    (∀ (m : BiomeMap) (x y : ℤ), ¬ inGrid m.width m.height x y → m.get x y = .OCEAN) := by
  refine ⟨fun m x y h => ?_, fun m x y h => ?_, fun m x y h => ?_,
    fun m x y h => ⟨?_, ?_⟩, fun m x y h => ?_⟩ <;>
    simp [HeightMap.get, MoistureMap.get, VegetationMap.get, FlowMap.getFlow,
      FlowMap.getRiver, BiomeMap.get, h]

/-- Witness for C8 at a concrete map and coordinate. -/
theorem claim_C8_oob_defaults_witness :
    bdHeight.get (-1) 0 = 0 ∧ bdMoist.get 5 0 = 0 ∧ bdVeg.get 0 (-2) = 0 ∧
    (bdFlow.getFlow 3 3 = 0 ∧ bdFlow.getRiver 3 3 = false) ∧ bdBiome.get (-1) (-1) = .OCEAN := by
  refine ⟨?_, ?_, ?_, ?_, ?_⟩
  · exact claim_C8_oob_defaults.1 bdHeight (-1) 0 (by decide)
  · exact claim_C8_oob_defaults.2.1 bdMoist 5 0 (by decide)
  · exact claim_C8_oob_defaults.2.2.1 bdVeg 0 (-2) (by decide)
  · exact claim_C8_oob_defaults.2.2.2.1 bdFlow 3 3 (by decide)
  · exact claim_C8_oob_defaults.2.2.2.2 bdBiome (-1) (-1) (by decide)

/-- C10: for a `DEAD` agent, `Agent.update` is a no-op: it returns the
agent, the vegetation map and the RNG unchanged, so every field of the
agent stays fixed forever — `DEAD` is absorbing. -/
theorem claim_C10_dead_absorbing (a : Agent) (veg : VegetationMap) (rng : SeededRNG)
    (h : a.state = .DEAD) : a.update veg rng = (a, veg, rng) := by
  simp [Agent.update, h]

/-- Witness for C10 at a concrete dead agent. -/
theorem claim_C10_dead_absorbing_witness :
    (Agent.update ⟨3, 1, 1, 50, 2, 1, 5, .DEAD, 100, 100, 7, some "Starvation"⟩ bdVeg
      (SeededRNG.mk32 1)) =
      (⟨3, 1, 1, 50, 2, 1, 5, .DEAD, 100, 100, 7, some "Starvation"⟩, bdVeg, SeededRNG.mk32 1) :=
  claim_C10_dead_absorbing _ bdVeg (SeededRNG.mk32 1) rfl

/-- C1: two worlds constructed independently from the same config and
each advanced by the same number of ticks have equal checksums in every
field; construction plus ticking is a pure function of the config (the
embedding threads all state — RNG, layers, roster — explicitly, and the
`Math.random` guard in `tick` means the source admits no ambient
randomness either). -/
theorem claim_C1_determinism (cfg : WorldConfig) (n : ℕ) (w1 w2 : World)
    (h1 : w1 = mkWorld cfg) (h2 : w2 = mkWorld cfg) :
    (worldTick^[n] w1).getChecksum = (worldTick^[n] w2).getChecksum := by
  subst h1; subst h2; rfl

/-- Witness for C1 at a concrete config and tick count. -/
theorem claim_C1_determinism_witness :
    (worldTick^[3] (mkWorld tinyCfg)).getChecksum =
      (worldTick^[3] (mkWorld tinyCfg)).getChecksum :=
  claim_C1_determinism tinyCfg 3 (mkWorld tinyCfg) (mkWorld tinyCfg) rfl rfl

/-- A single tick leaves the four static layers untouched. -/
theorem tick_static_layers (w : World) :
    (worldTick w).heightMap = w.heightMap ∧ (worldTick w).flowMap = w.flowMap ∧
    (worldTick w).moistureMap = w.moistureMap ∧ (worldTick w).biomeMap = w.biomeMap :=
  ⟨rfl, rfl, rfl, rfl⟩

/-- C7: any number of ticks leaves each static layer (height, flow,
moisture, biome) element-for-element identical to its value at tick 0,
and therefore each of their per-layer checksums as well. -/
theorem claim_C7_static_layers (w : World) (n : ℕ) :
    (worldTick^[n] w).heightMap = w.heightMap ∧
    (worldTick^[n] w).flowMap = w.flowMap ∧
    (worldTick^[n] w).moistureMap = w.moistureMap ∧
    (worldTick^[n] w).biomeMap = w.biomeMap ∧
    (worldTick^[n] w).getChecksum.height = w.getChecksum.height ∧
    (worldTick^[n] w).getChecksum.flow = w.getChecksum.flow ∧
    (worldTick^[n] w).getChecksum.moisture = w.getChecksum.moisture ∧
    (worldTick^[n] w).getChecksum.biome = w.getChecksum.biome := by
  have key : ∀ m : ℕ, (worldTick^[m] w).heightMap = w.heightMap ∧
      (worldTick^[m] w).flowMap = w.flowMap ∧
      (worldTick^[m] w).moistureMap = w.moistureMap ∧
      (worldTick^[m] w).biomeMap = w.biomeMap := by
    intro m
    induction m with
    | zero => exact ⟨rfl, rfl, rfl, rfl⟩
    | succ k ih =>
      rw [Function.iterate_succ_apply']
      exact ⟨(tick_static_layers _).1.trans ih.1,
        (tick_static_layers _).2.1.trans ih.2.1,
        (tick_static_layers _).2.2.1.trans ih.2.2.1,
        (tick_static_layers _).2.2.2.trans ih.2.2.2⟩
  obtain ⟨h1, h2, h3, h4⟩ := key n
  refine ⟨h1, h2, h3, h4, ?_, ?_, ?_, ?_⟩ <;>
    simp only [World.getChecksum, h1, h2, h3, h4]

/-- C2 (code evaluated at the failing input): in `beachDeathWorld` the
single cell is a beach cell whose vegetation respects the cap 0.1
before the tick; during the tick the agent starves, and the carcass
deposit `set(x, y, currentVeg + 0.5)` clamps only to `[0, 1]`, leaving
the cell's vegetation above its biome cap (and the dead agent removed
from the roster). -/
theorem claim_C2_carcass_exceeds_cap :
    beachDeathWorld.biomeMap.get 0 0 = .BEACH ∧
    beachDeathWorld.vegetationMap.get 0 0 ≤ MAX_DENSITY (beachDeathWorld.biomeMap.get 0 0) ∧
    MAX_DENSITY ((worldTick beachDeathWorld).biomeMap.get 0 0) <
      (worldTick beachDeathWorld).vegetationMap.get 0 0 ∧
    (worldTick beachDeathWorld).agents = [] := by
  with_unfolding_all decide

/-- C9 (counterexample): on a 1 x 1 grid with seed 6 (and the default
octaves, persistence and scale) the accumulated noise has zero range,
`normalize` leaves it untouched, and the single cell of the returned
grid exceeds 1 — so not every config yields values in `[0, 1]`. -/
theorem claim_C9_counterexample :
    1 < (generateHeightMap ⟨1, 1, 6, none, none, none⟩).get 0 0 := by
  with_unfolding_all decide

/-- A left fold of `min` never exceeds its initial value. -/
theorem foldl_min_le_init (a : ℚ) (l : List ℚ) : l.foldl min a ≤ a := by
  induction l generalizing a with
  | nil => exact le_refl a
  | cons b l ih => exact le_trans (ih (min a b)) (min_le_left a b)

/-- A left fold of `min` never exceeds a member of the list. -/
theorem foldl_min_le_mem (a b : ℚ) (l : List ℚ) (hb : b ∈ l) : l.foldl min a ≤ b := by
  induction l generalizing a with
  | nil => cases hb
  | cons c l ih =>
    rcases List.mem_cons.mp hb with h | h
    · subst h
      exact le_trans (foldl_min_le_init _ l) (min_le_right a b)
    · exact ih (min a c) h

/-- A left fold of `max` dominates its initial value. -/
theorem le_foldl_max_init (a : ℚ) (l : List ℚ) : a ≤ l.foldl max a := by
  induction l generalizing a with
  | nil => exact le_refl a
  | cons b l ih => exact le_trans (le_max_left a b) (ih (max a b))

/-- A left fold of `max` dominates every member of the list. -/
theorem le_foldl_max_mem (a b : ℚ) (l : List ℚ) (hb : b ∈ l) : b ≤ l.foldl max a := by
  induction l generalizing a with
  | nil => cases hb
  | cons c l ih =>
    rcases List.mem_cons.mp hb with h | h
    · subst h
      exact le_trans (le_max_right a b) (le_foldl_max_init _ l)
    · exact ih (max a c) h

/-- An in-bounds cell is hit by the linear enumeration of the backing
array at index `y * width + x`. -/
theorem HeightMap.lin_of_inGrid (m : HeightMap) (x y : ℤ)
    (h : inGrid m.width m.height x y) :
    y.toNat * m.width + x.toNat < m.width * m.height ∧
      m.lin (y.toNat * m.width + x.toNat) = m.data x y := by
  obtain ⟨hx0, hxw, hy0, hyh⟩ := h
  have hxn : x.toNat < m.width := by omega
  have hyn : y.toNat < m.height := by omega
  have hw : 0 < m.width := Nat.pos_of_ne_zero (by omega)
  have hmod : (y.toNat * m.width + x.toNat) % m.width = x.toNat := by
    rw [Nat.mul_comm y.toNat m.width, Nat.mul_add_mod]
    exact Nat.mod_eq_of_lt hxn
  have hdiv : (y.toNat * m.width + x.toNat) / m.width = y.toNat := by
    rw [Nat.mul_comm y.toNat m.width, Nat.mul_add_div hw, Nat.div_eq_of_lt hxn, Nat.add_zero]
  constructor
  · calc y.toNat * m.width + x.toNat < (y.toNat + 1) * m.width := by nlinarith
      _ ≤ m.height * m.width := Nat.mul_le_mul_right _ (by omega)
      _ = m.width * m.height := Nat.mul_comm _ _
  · unfold HeightMap.lin
    rw [hmod, hdiv]
    congr 1 <;> omega

/-- Bounds of `HeightMap.normalize`: as soon as the grid attains two
distinct values, every cell of the normalized grid lies in `[0, 1]`
(out-of-bounds reads return 0 and are in range trivially). -/
theorem normalize_bounds (m : HeightMap)
    (hr : ∃ i j, i < m.width * m.height ∧ j < m.width * m.height ∧ m.lin i ≠ m.lin j)
    (x y : ℤ) : 0 ≤ m.normalize.get x y ∧ m.normalize.get x y ≤ 1 := by
  obtain ⟨i, j, hi, hj, hij⟩ := hr
  have hmemi : m.lin i ∈ (List.range (m.width * m.height)).map m.lin :=
    List.mem_map_of_mem _ (List.mem_range.mpr hi)
  have hmemj : m.lin j ∈ (List.range (m.width * m.height)).map m.lin :=
    List.mem_map_of_mem _ (List.mem_range.mpr hj)
  rcases hv : (List.range (m.width * m.height)).map m.lin with _ | ⟨v, rest⟩
  · rw [hv] at hmemi
    cases hmemi
  · rw [hv] at hmemi hmemj
    have hbound : ∀ b ∈ v :: rest, rest.foldl min v ≤ b ∧ b ≤ rest.foldl max v := by
      intro b hb
      rcases List.mem_cons.mp hb with h | h
      · subst h
        exact ⟨foldl_min_le_init _ _, le_foldl_max_init _ _⟩
      · exact ⟨foldl_min_le_mem _ _ _ h, le_foldl_max_mem _ _ _ h⟩
    have hrange : 0 < rest.foldl max v - rest.foldl min v := by
      by_contra hle
      push_neg at hle
      have h1 := hbound _ hmemi
      have h2 := hbound _ hmemj
      exact hij (by linarith [h1.1, h1.2, h2.1, h2.2])
    have hnorm : m.normalize = { m with data := (fun a b =>
        if inGrid m.width m.height a b then
          (m.data a b - rest.foldl min v) / (rest.foldl max v - rest.foldl min v)
        else m.data a b) } := by
      unfold HeightMap.normalize
      rw [hv]
      simp only [hrange, if_pos]
    rw [hnorm]
    unfold HeightMap.get
    simp only
    by_cases hg : inGrid m.width m.height x y
    · simp only [hg, if_pos]
      obtain ⟨hlt, hlin⟩ := m.lin_of_inGrid x y hg
      have hmem : m.data x y ∈ v :: rest := by
        rw [← hlin, ← hv]
        exact List.mem_map_of_mem _ (List.mem_range.mpr hlt)
      obtain ⟨hmin, hmax⟩ := hbound _ hmem
      constructor
      · exact div_nonneg (by linarith) (le_of_lt hrange)
      · rw [div_le_one hrange]
        linarith
    · simp only [hg, if_neg, if_false]
      norm_num

/-- C9 (amended): whenever the accumulated multi-octave grid attains at
least two distinct values (so the min-max range is positive — true of
every non-degenerate terrain), every cell of `generateHeightMap` lies
in `[0, 1]`; on a constant grid (e.g. 1 x 1) `normalize` is a no-op and
the bound can fail, as the counterexample shows. -/
theorem claim_C9_normalized_bounds (cfg : HeightMapConfig)
    (hr : ∃ i j, i < cfg.width * cfg.height ∧ j < cfg.width * cfg.height ∧
      (rawHeightGrid cfg).lin i ≠ (rawHeightGrid cfg).lin j)
    (x y : ℤ) :
    0 ≤ (generateHeightMap cfg).get x y ∧ (generateHeightMap cfg).get x y ≤ 1 :=
  normalize_bounds (rawHeightGrid cfg) hr x y

/-- Witness for the amended C9 at a concrete 2 x 1 config whose two
raw cells differ. -/
theorem claim_C9_normalized_bounds_witness :
    0 ≤ (generateHeightMap ⟨2, 1, 0, none, none, none⟩).get 0 0 ∧
      (generateHeightMap ⟨2, 1, 0, none, none, none⟩).get 0 0 ≤ 1 :=
  claim_C9_normalized_bounds ⟨2, 1, 0, none, none, none⟩
    ⟨0, 1, by norm_num, by norm_num, by with_unfolding_all decide⟩ 0 0

/-- The per-cell arithmetic of the strided update, over abstract cap
and growth-rate values: the source condition and clamping collapse to
the claim formula whenever the cap is positive (and at most 1) and the
growth rate positive. -/
theorem updateCellArith (maxV base cur m : ℚ)
    (hmax : max (1 / 1000000) maxV = maxV) (hmaxpos : 0 < maxV) (hmax1 : maxV ≤ 1)
    (hbase : 0 < base) (hcur0 : 0 ≤ cur) (hm : 0 ≤ m) :
    (if maxV ≤ 0 then cur
     else
      if 0 < base * (1 / 4 + 3 / 4 * m) * (1 - cur / max (1 / 1000000) maxV) * 4 ∧
          cur < maxV then
        clamp01 (min maxV
          (cur + base * (1 / 4 + 3 / 4 * m) * (1 - cur / max (1 / 1000000) maxV) * 4))
      else cur) =
    (if 0 < maxV ∧ cur < maxV then
        min maxV (cur + base * (1 / 4 + 3 / 4 * m) * (1 - cur / maxV) * 4)
      else cur) := by
  rw [hmax, if_neg (not_le.mpr hmaxpos)]
  by_cases hcur : cur < maxV
  · have hfac : 0 < 1 / 4 + 3 / 4 * m := by linarith
    have hdef : 0 < 1 - cur / maxV := by
      have := (div_lt_one hmaxpos).mpr hcur
      linarith
    have hreg : 0 < base * (1 / 4 + 3 / 4 * m) * (1 - cur / maxV) * 4 := by
      have := mul_pos (mul_pos hbase hfac) hdef
      linarith
    rw [if_pos ⟨hreg, hcur⟩, if_pos ⟨hmaxpos, hcur⟩]
    have hminpos : 0 ≤ min maxV (cur + base * (1 / 4 + 3 / 4 * m) * (1 - cur / maxV) * 4) :=
      le_min (le_of_lt hmaxpos) (by linarith)
    have hmin1 : min maxV (cur + base * (1 / 4 + 3 / 4 * m) * (1 - cur / maxV) * 4) ≤ 1 :=
      le_trans (min_le_left _ _) hmax1
    unfold clamp01
    rw [min_eq_right hmin1, max_eq_right hminpos]
  · rw [if_neg (fun hh => hcur hh.2), if_neg (fun hh => hcur hh.2)]

/-- C4: `updateVegetation(veg, bio, moi, t)` modifies exactly the
in-bounds cells in rows `y % 4 = t % 4` whose biome maximum is positive
and whose current value is below it, setting each such cell to
`min(maxVeg, current + growthRate * (0.25 + 0.75 * moisture) *
(1 - current / maxVeg) * 4)`; every other cell is left unchanged.
The hypotheses state that the vegetation and moisture layers hold
non-negative values, as every layer produced by the engine does. -/
theorem claim_C4_strided_vegetation (veg : VegetationMap) (bio : BiomeMap)
    (moi : MoistureMap) (t : ℕ) (x y : ℤ)
    (hveg : ∀ a b, 0 ≤ veg.get a b) (hmoi : ∀ a b, 0 ≤ moi.get a b) :
    ((inGrid veg.width veg.height x y ∧ y % 4 = ((t % 4 : ℕ) : ℤ)) →
      (updateVegetation veg bio moi t).get x y =
        (if 0 < MAX_DENSITY (bio.get x y) ∧ veg.get x y < MAX_DENSITY (bio.get x y) then
          min (MAX_DENSITY (bio.get x y))
            (veg.get x y + GROWTH_RATE (bio.get x y) * (1 / 4 + 3 / 4 * moi.get x y) *
              (1 - veg.get x y / MAX_DENSITY (bio.get x y)) * 4)
        else veg.get x y)) ∧
    (¬(inGrid veg.width veg.height x y ∧ y % 4 = ((t % 4 : ℕ) : ℤ)) →
      (updateVegetation veg bio moi t).get x y = veg.get x y) := by
  have hget : (updateVegetation veg bio moi t).get x y =
      if inGrid veg.width veg.height x y then updateVegetationData veg bio moi t x y
      else 0 := rfl
  have hcast : ((4 : ℕ) : ℤ) = (4 : ℤ) := by norm_num
  constructor
  · rintro ⟨hg, hrow⟩
    rw [hget, if_pos hg]
    unfold updateVegetationData
    rw [if_pos ⟨hg, by rw [hcast]; exact hrow⟩]
    have hdata : veg.data x y = veg.get x y := by
      unfold VegetationMap.get
      rw [if_pos hg]
    have hm := hmoi x y
    have hv := hveg x y
    rw [hdata]
    rcases hbio : bio.get x y <;> simp only [MAX_DENSITY, GROWTH_RATE]
    case OCEAN => norm_num
    case SNOW => norm_num
    case BEACH =>
      exact updateCellArith (1 / 10) (2 / 10000) (veg.get x y) (moi.get x y)
        (by norm_num) (by norm_num) (by norm_num) (by norm_num) hv hm
    case PLAINS =>
      exact updateCellArith (1 / 2) (10 / 10000) (veg.get x y) (moi.get x y)
        (by norm_num) (by norm_num) (by norm_num) (by norm_num) hv hm
    case FOREST =>
      exact updateCellArith (9 / 10) (20 / 10000) (veg.get x y) (moi.get x y)
        (by norm_num) (by norm_num) (by norm_num) (by norm_num) hv hm
    case DESERT =>
      exact updateCellArith (1 / 20) (1 / 10000) (veg.get x y) (moi.get x y)
        (by norm_num) (by norm_num) (by norm_num) (by norm_num) hv hm
    case MOUNTAIN =>
      exact updateCellArith (1 / 5) (5 / 10000) (veg.get x y) (moi.get x y)
        (by norm_num) (by norm_num) (by norm_num) (by norm_num) hv hm
  · intro hn
    rw [hget]
    by_cases hg : inGrid veg.width veg.height x y
    · rw [if_pos hg]
      unfold updateVegetationData
      rw [if_neg (by
        rintro ⟨hg2, hrow⟩
        exact hn ⟨hg, by rw [hcast] at hrow; exact hrow⟩)]
      unfold VegetationMap.get
      rw [if_pos hg]
    · rw [if_neg hg]
      unfold VegetationMap.get
      rw [if_neg hg]

/-- Every cell of an initialized vegetation layer is non-negative (all
stored values pass through the clamping `set`). -/
theorem initializeVegetation_nonneg (bm : BiomeMap) (mm : MoistureMap) :
    ∀ a b, 0 ≤ (initializeVegetation bm mm).get a b := by
  intro a b
  unfold initializeVegetation VegetationMap.get clamp01
  simp only
  split_ifs <;> simp [le_max_left]

/-- Every cell of a computed moisture layer is non-negative (the final
value is clamped to `[0, 1]`). -/
theorem calculateMoisture_nonneg (hm : HeightMap) (fm : FlowMap) (md : ℕ) :
    ∀ a b, 0 ≤ (calculateMoisture hm fm md).get a b := by
  intro a b
  unfold calculateMoisture MoistureMap.get moistureAt clamp01
  simp only
  split_ifs <;> simp [le_max_left]

/-- Witness for C4 on the 1 x 1 pipeline layers: the beach cell in the
selected row takes the claim formula; a cell outside the grid row
pattern is untouched. -/
theorem claim_C4_strided_vegetation_witness :
    ((updateVegetation bdVeg bdBiome bdMoist 0).get 0 0 =
      (if 0 < MAX_DENSITY (bdBiome.get 0 0) ∧ bdVeg.get 0 0 < MAX_DENSITY (bdBiome.get 0 0) then
        min (MAX_DENSITY (bdBiome.get 0 0))
          (bdVeg.get 0 0 + GROWTH_RATE (bdBiome.get 0 0) * (1 / 4 + 3 / 4 * bdMoist.get 0 0) *
            (1 - bdVeg.get 0 0 / MAX_DENSITY (bdBiome.get 0 0)) * 4)
      else bdVeg.get 0 0)) ∧
    (updateVegetation bdVeg bdBiome bdMoist 0).get 0 1 = bdVeg.get 0 1 :=
  ⟨(claim_C4_strided_vegetation bdVeg bdBiome bdMoist 0 0 0
      (initializeVegetation_nonneg bdBiome bdMoist)
      (calculateMoisture_nonneg bdHeight bdFlow 15)).1 ⟨by decide, by decide⟩,
    (claim_C4_strided_vegetation bdVeg bdBiome bdMoist 0 0 1
      (initializeVegetation_nonneg bdBiome bdMoist)
      (calculateMoisture_nonneg bdHeight bdFlow 15)).2 (by decide)⟩

/-- Invariant of the lowest-neighbor scan: the candidate is either
still the cell itself, or an in-bounds cell carrying its own height,
strictly lower than the scanned cell. -/
def LowInv (hm : HeightMap) (c : Cell) (st : ℤ × ℤ × ℚ) : Prop :=
  st = (c.x, c.y, c.h) ∨
    (inGrid hm.width hm.height st.1 st.2.1 ∧ st.2.2 = hm.get st.1 st.2.1 ∧ st.2.2 < c.h)

/-- The lowest-neighbor fold preserves its invariant. -/
theorem lowestFold_spec (hm : HeightMap) (c : Cell) (offs : List (ℤ × ℤ))
    (st : ℤ × ℤ × ℚ) (h : LowInv hm c st) :
    LowInv hm c (offs.foldl (lowestStep hm c) st) := by
  induction offs generalizing st with
  | nil => exact h
  | cons d ds ih =>
    refine ih _ ?_
    unfold lowestStep
    dsimp only
    split_ifs with h1 h2
    · right
      refine ⟨h1, rfl, ?_⟩
      rcases h with he | ⟨_, _, hlt⟩
      · rw [he] at h2
        exact h2
      · exact lt_trans h2 hlt
    · exact h
    · exact h

/-- The result of the lowest-neighbor scan satisfies the invariant. -/
theorem lowestNeighbor_spec (hm : HeightMap) (c : Cell) :
    LowInv hm c (lowestNeighbor hm c) :=
  lowestFold_spec hm c neighborOffsets _ (Or.inl rfl)

/-- One accumulation step keeps every in-bounds flow value at least 1. -/
theorem flowStep_ge_one (hm : HeightMap) (f : ℤ → ℤ → ℕ) (c : Cell)
    (hf : ∀ x y, inGrid hm.width hm.height x y → 1 ≤ f x y) :
    ∀ x y, inGrid hm.width hm.height x y → 1 ≤ flowStep hm f c x y := by
  intro x y hxy
  unfold flowStep
  split_ifs with h1
  · exact hf x y hxy
  · by_cases h2 : x = (lowestNeighbor hm c).1 ∧ y = (lowestNeighbor hm c).2.1
    · simp only [h2, and_self, if_pos]
      rw [← h2.1, ← h2.2]
      exact le_trans (hf x y hxy) (Nat.le_add_right _ _)
    · simp only [h2, if_neg, if_false]
      exact hf x y hxy

/-- The accumulation walk keeps every in-bounds flow value at least 1. -/
theorem flowAccum_ge_one (hm : HeightMap) (cells : List Cell) (f : ℤ → ℤ → ℕ)
    (hf : ∀ x y, inGrid hm.width hm.height x y → 1 ≤ f x y) :
    ∀ x y, inGrid hm.width hm.height x y → 1 ≤ flowAccum hm cells f x y := by
  induction cells generalizing f with
  | nil => exact hf
  | cons c cs ih => exact ih _ (flowStep_ge_one hm f c hf)

/-- A step for a cell no higher than `c` never changes the flow stored
at `c` (its target is strictly lower than the step's own cell, hence
strictly lower than `c`). -/
theorem flowStep_stable (hm : HeightMap) (f : ℤ → ℤ → ℕ) (c d : Cell)
    (hc : c.h = hm.get c.x c.y) (_hd : d.h = hm.get d.x d.y) (hdc : d.h ≤ c.h) :
    flowStep hm f d c.x c.y = f c.x c.y := by
  unfold flowStep
  split_ifs with h1
  · rfl
  · rcases lowestNeighbor_spec hm d with heq | ⟨_, hh, hlt⟩
    · exact absurd ⟨by rw [heq], by rw [heq]⟩ h1
    · dsimp only
      rw [if_neg ?_]
      rintro ⟨hx, hy⟩
      rw [← hx, ← hy, ← hc] at hh
      rw [hh] at hlt
      exact absurd (lt_of_lt_of_le hlt hdc) (lt_irrefl c.h)

/-- The accumulation walk over cells no higher than `c` never changes
the flow stored at `c`: once a cell has been processed, its value is
final. -/
theorem flowAccum_stable (hm : HeightMap) (c : Cell) (hc : c.h = hm.get c.x c.y)
    (l : List Cell) (hl : ∀ d ∈ l, d.h ≤ c.h ∧ d.h = hm.get d.x d.y) (f : ℤ → ℤ → ℕ) :
    flowAccum hm l f c.x c.y = f c.x c.y := by
  induction l generalizing f with
  | nil => rfl
  | cons d ds ih =>
    have hd := hl d (List.mem_cons_self d ds)
    calc flowAccum hm (d :: ds) f c.x c.y
        = flowAccum hm ds (flowStep hm f d) c.x c.y := rfl
      _ = flowStep hm f d c.x c.y := ih (fun e he => hl e (List.mem_cons_of_mem d he)) _
      _ = f c.x c.y := flowStep_stable hm f c d hc hd.2 hd.1

/-- Every entry of the cell list stores the height of its own cell. -/
theorem cellList_h (hm : HeightMap) : ∀ c ∈ cellList hm, c.h = hm.get c.x c.y := by
  intro c hc
  unfold cellList at hc
  simp only [List.mem_flatMap, List.mem_map, List.mem_range] at hc
  obtain ⟨y, _, x, _, rfl⟩ := hc
  rfl

/-- Every entry of the sorted cell list stores the height of its own
cell. -/
theorem sortedCells_h (hm : HeightMap) : ∀ c ∈ sortedCells hm, c.h = hm.get c.x c.y :=
  fun c hc => cellList_h hm c ((List.perm_insertionSort _ _).mem_iff.mp hc)

/-- The sorted cell list is sorted by height, descending. -/
theorem sortedCells_sorted (hm : HeightMap) :
    List.Sorted (fun a b : Cell => b.h ≤ a.h) (sortedCells hm) := by
  haveI : IsTotal Cell (fun a b : Cell => b.h ≤ a.h) := ⟨fun a b => le_total _ _⟩
  haveI : IsTrans Cell (fun a b : Cell => b.h ≤ a.h) := ⟨fun _ _ _ h1 h2 => le_trans h2 h1⟩
  exact List.sorted_insertionSort _ _

/-- C5: `calculateFlow` initializes every in-bounds cell's flow to 1;
every in-bounds cell's final flow is at least 1; a cell is river-flagged
exactly when its final flow reaches the threshold; and, processing the
height-descending sorted list, each cell's accumulated flow is final by
the time it has been processed (the remaining, lower cells never write
to it again). -/
theorem claim_C5_flow_accumulation (hm : HeightMap) (th : ℚ) :
    (∀ x y, inGrid hm.width hm.height x y → flowInit hm x y = 1) ∧
    (∀ x y, inGrid hm.width hm.height x y → 1 ≤ (calculateFlow hm th).getFlow x y) ∧
    (∀ x y, inGrid hm.width hm.height x y →
      ((calculateFlow hm th).getRiver x y = true ↔
        th ≤ ((calculateFlow hm th).getFlow x y : ℚ))) ∧
    (∀ (l1 : List Cell) (c : Cell) (l2 : List Cell), sortedCells hm = l1 ++ c :: l2 →
      flowAccum hm (l1 ++ [c]) (flowInit hm) c.x c.y =
        (calculateFlow hm th).flow c.x c.y) := by
  have hflow : (calculateFlow hm th).flow = flowAccum hm (sortedCells hm) (flowInit hm) := rfl
  refine ⟨?_, ?_, ?_, ?_⟩
  · intro x y h
    unfold flowInit
    rw [if_pos h]
  · intro x y h
    have h1 : (calculateFlow hm th).getFlow x y =
        flowAccum hm (sortedCells hm) (flowInit hm) x y := by
      unfold FlowMap.getFlow
      rw [hflow] at *
      exact if_pos h
    rw [h1]
    refine flowAccum_ge_one hm _ _ (fun a b hab => ?_) x y h
    unfold flowInit
    rw [if_pos hab]
  · intro x y h
    have h1 : (calculateFlow hm th).getRiver x y =
        decide (th ≤ (flowAccum hm (sortedCells hm) (flowInit hm) x y : ℚ)) := by
      unfold FlowMap.getRiver calculateFlow
      simp only [h, if_pos]
    have h2 : (calculateFlow hm th).getFlow x y =
        flowAccum hm (sortedCells hm) (flowInit hm) x y := by
      unfold FlowMap.getFlow
      rw [hflow] at *
      exact if_pos h
    rw [h1, h2]
    exact decide_eq_true_iff
  · intro l1 c l2 hsplit
    have hmemc : c ∈ sortedCells hm := by
      rw [hsplit]
      exact List.mem_append_right l1 (List.mem_cons_self c l2)
    have hc := sortedCells_h hm c hmemc
    have hsorted := sortedCells_sorted hm
    rw [hsplit] at hsorted
    have hsub : List.Sorted (fun a b : Cell => b.h ≤ a.h) (c :: l2) :=
      hsorted.sublist (List.sublist_append_right l1 (c :: l2))
    have hl2 : ∀ d ∈ l2, d.h ≤ c.h ∧ d.h = hm.get d.x d.y := by
      intro d hd
      refine ⟨List.rel_of_sorted_cons hsub d hd, sortedCells_h hm d ?_⟩
      rw [hsplit]
      exact List.mem_append_right l1 (List.mem_cons_of_mem c hd)
    have happ2 : flowAccum hm (sortedCells hm) (flowInit hm) =
        flowAccum hm l2 (flowAccum hm (l1 ++ [c]) (flowInit hm)) := by
      rw [hsplit]
      show List.foldl _ _ (l1 ++ c :: l2) = _
      rw [show l1 ++ c :: l2 = (l1 ++ [c]) ++ l2 by simp, List.foldl_append]
      rfl
    rw [hflow, happ2]
    exact (flowAccum_stable hm c hc l2 hl2 _).symm

/-- Witness for C5 on a concrete 2 x 1 map: the higher cell keeps
flow 1, the lower receives it (flow 2), flags follow the threshold 2,
and the split stability instance holds. -/
theorem claim_C5_flow_accumulation_witness :
    flowInit ⟨2, 1, fun x _ => if x = 0 then 3 / 4 else 1 / 4, none⟩ 0 0 = 1 ∧
    1 ≤ (calculateFlow ⟨2, 1, fun x _ => if x = 0 then 3 / 4 else 1 / 4, none⟩ 2).getFlow 1 0 ∧
    ((calculateFlow ⟨2, 1, fun x _ => if x = 0 then 3 / 4 else 1 / 4, none⟩ 2).getRiver 1 0 = true ↔
      2 ≤ (((calculateFlow ⟨2, 1, fun x _ => if x = 0 then 3 / 4 else 1 / 4, none⟩ 2).getFlow 1 0 : ℕ) : ℚ)) ∧
    flowAccum ⟨2, 1, fun x _ => if x = 0 then 3 / 4 else 1 / 4, none⟩
        ([] ++ [⟨0, 0, 3 / 4⟩]) (flowInit ⟨2, 1, fun x _ => if x = 0 then 3 / 4 else 1 / 4, none⟩) 0 0 =
      (calculateFlow ⟨2, 1, fun x _ => if x = 0 then 3 / 4 else 1 / 4, none⟩ 2).flow 0 0 :=
  ⟨(claim_C5_flow_accumulation _ 2).1 0 0 (by decide),
    (claim_C5_flow_accumulation _ 2).2.1 1 0 (by decide),
    (claim_C5_flow_accumulation _ 2).2.2.1 1 0 (by decide),
    (claim_C5_flow_accumulation _ 2).2.2.2 [] ⟨0, 0, 3 / 4⟩ [⟨1, 0, 1 / 4⟩]
      (by with_unfolding_all decide)⟩

/-- `kill` keeps the agent id. -/
theorem Agent.kill_id (a : Agent) (s : String) : (a.kill s).id = a.id := rfl

/-- `move` keeps the agent id. -/
theorem Agent.move_id (a : Agent) (dx dy : ℚ) : (a.move dx dy).id = a.id := rfl

/-- The vitals bookkeeping keeps the agent id. -/
theorem Agent.stepVitals_id (a : Agent) : a.stepVitals.id = a.id := rfl

/-- The vitals bookkeeping keeps the agent state. -/
theorem Agent.stepVitals_state (a : Agent) : a.stepVitals.state = a.state := rfl

/-- `handleIdle` keeps the agent id. -/
theorem Agent.handleIdle_id (a : Agent) (rng : SeededRNG) :
    (a.handleIdle rng).1.id = a.id := by
  unfold Agent.handleIdle
  dsimp only
  split_ifs <;> rfl

/-- `handleForaging` keeps the agent id. -/
theorem Agent.handleForaging_id (a : Agent) (veg : VegetationMap) (rng : SeededRNG) :
    (a.handleForaging veg rng).1.id = a.id := by
  unfold Agent.handleForaging
  dsimp only
  split_ifs <;> rfl

/-- `handleEating` keeps the agent id. -/
theorem Agent.handleEating_id (a : Agent) (veg : VegetationMap) :
    (a.handleEating veg).1.id = a.id := by
  unfold Agent.handleEating
  dsimp only
  split_ifs <;> rfl

/-- The state dispatch keeps the agent id. -/
theorem Agent.dispatchState_id (a : Agent) (veg : VegetationMap) (rng : SeededRNG) :
    (a.dispatchState veg rng).1.id = a.id := by
  unfold Agent.dispatchState
  rcases a.state <;>
    simp only [Agent.handleIdle_id, Agent.handleForaging_id, Agent.handleEating_id]

/-- The reproduction gate keeps the agent id. -/
theorem Agent.applyReproGate_id (a : Agent) (veg : VegetationMap) :
    (a.applyReproGate veg).id = a.id := by
  unfold Agent.applyReproGate
  dsimp only
  split_ifs <;> rfl

/-- The closing clamps keep the agent id. -/
theorem Agent.clampBounds_id (a : Agent) (veg : VegetationMap) :
    (a.clampBounds veg).id = a.id := rfl

/-- The closing clamps keep the agent state. -/
theorem Agent.clampBounds_state (a : Agent) (veg : VegetationMap) :
    (a.clampBounds veg).state = a.state := rfl

/-- `Agent.update` keeps the agent id. -/
theorem Agent.update_id (a : Agent) (veg : VegetationMap) (rng : SeededRNG) :
    (a.update veg rng).1.id = a.id := by
  unfold Agent.update
  dsimp only
  split_ifs with h1 h2
  · rfl
  · rfl
  · rw [Agent.clampBounds_id, Agent.applyReproGate_id, Agent.dispatchState_id,
      Agent.stepVitals_id]

/-- `handleIdle` either keeps the state or switches to `FORAGING`. -/
theorem Agent.handleIdle_state (a : Agent) (rng : SeededRNG) :
    (a.handleIdle rng).1.state = a.state ∨ (a.handleIdle rng).1.state = .FORAGING := by
  unfold Agent.handleIdle
  dsimp only
  split_ifs <;> simp [Agent.move]

/-- `handleForaging` either keeps the state or switches to `EATING`. -/
theorem Agent.handleForaging_state (a : Agent) (veg : VegetationMap) (rng : SeededRNG) :
    (a.handleForaging veg rng).1.state = a.state ∨
      (a.handleForaging veg rng).1.state = .EATING := by
  unfold Agent.handleForaging
  dsimp only
  split_ifs <;> simp [Agent.move]

/-- `handleEating` either keeps the state or moves to `FORAGING` or
`IDLE`. -/
theorem Agent.handleEating_state (a : Agent) (veg : VegetationMap) :
    (a.handleEating veg).1.state = a.state ∨ (a.handleEating veg).1.state = .FORAGING ∨
      (a.handleEating veg).1.state = .IDLE := by
  unfold Agent.handleEating
  dsimp only
  split_ifs <;> simp

/-- The dispatch never introduces `REPRODUCING`: a post-dispatch
`REPRODUCING` state was already there. -/
theorem Agent.dispatchState_repro (a : Agent) (veg : VegetationMap) (rng : SeededRNG)
    (h : (a.dispatchState veg rng).1.state = .REPRODUCING) : a.state = .REPRODUCING := by
  unfold Agent.dispatchState at h
  rcases hs : a.state with _ | _ | _ | _ | _ <;> rw [hs] at h <;> dsimp only at h <;>
    first
      | rfl
      | (rcases a.handleIdle_state rng with h2 | h2 <;> rw [h2] at h <;> simp_all)
      | (rcases a.handleForaging_state veg rng with h2 | h2 <;> rw [h2] at h <;> simp_all)
      | (rcases a.handleEating_state veg with h2 | h2 | h2 <;> rw [h2] at h <;> simp_all)
      | simp_all

/-- `reproduce` keeps the parent id. -/
theorem Agent.reproduce_parent_id (a : Agent) (n : ℕ) (rng : SeededRNG) :
    (a.reproduce n rng).1.id = a.id := rfl

/-- `reproduce` gives the offspring exactly the id it was handed. -/
theorem Agent.reproduce_offspring_id (a : Agent) (n : ℕ) (rng : SeededRNG) :
    (a.reproduce n rng).2.1.id = n := rfl

/-- The reproduction gate of `Agent.update`: if an update turns a
non-`REPRODUCING` agent `REPRODUCING`, then at the gate point (after
vitals and dispatch) the agent was `IDLE` with cooldown 0, hunger below
the threshold, energy at least the requirement, and local vegetation at
least the minimum — all four conditions at once. -/
theorem update_repro_gate (a : Agent) (veg : VegetationMap) (rng : SeededRNG)
    (h : (a.update veg rng).1.state = .REPRODUCING) (hne : a.state ≠ .REPRODUCING) :
    (a.stepVitals.dispatchState veg rng).1.state = .IDLE ∧
    (a.stepVitals.dispatchState veg rng).1.reproCooldown = 0 ∧
    (a.stepVitals.dispatchState veg rng).1.hunger < REPRO_HUNGER_THRESHOLD ∧
    REPRO_ENERGY_REQUIRED ≤ (a.stepVitals.dispatchState veg rng).1.energy ∧
    REPRO_MIN_LOCAL_VEG ≤ (a.stepVitals.dispatchState veg rng).2.1.get
      (a.stepVitals.dispatchState veg rng).1.x.floor
      (a.stepVitals.dispatchState veg rng).1.y.floor := by
  unfold Agent.update at h
  dsimp only at h
  by_cases h1 : a.state = .DEAD
  · rw [if_pos h1] at h
    exact absurd h hne
  · rw [if_neg h1] at h
    by_cases h2 : a.stepVitals.maxHunger ≤ a.stepVitals.hunger
    · rw [if_pos h2] at h
      simp [Agent.kill] at h
    · rw [if_neg h2] at h
      rw [Agent.clampBounds_state] at h
      unfold Agent.applyReproGate at h
      dsimp only at h
      split_ifs at h with g1 g2
      · exact ⟨g1.1, g1.2, g2.1, g2.2.1, g2.2.2⟩
      · exact absurd ((Agent.stepVitals_state a) ▸ Agent.dispatchState_repro _ _ _ h) hne
      · exact absurd ((Agent.stepVitals_state a) ▸ Agent.dispatchState_repro _ _ _ h) hne

/-- Ids through the roster loop: the counter never decreases, every
agent of the produced roster has an id below the final counter, and
every produced agent either keeps an id of the incoming roster or got a
fresh id at or above the incoming counter. -/
theorem processAgents_spec (l : List Agent) :
    ∀ (veg : VegetationMap) (rng : SeededRNG) (tk nid : ℕ),
    (∀ a ∈ l, a.id < nid) →
    nid ≤ (processAgents l veg rng tk nid).nextId ∧
    (∀ a ∈ (processAgents l veg rng tk nid).agents,
      a.id < (processAgents l veg rng tk nid).nextId) ∧
    (∀ a ∈ (processAgents l veg rng tk nid).agents,
      a.id ∈ l.map Agent.id ∨ nid ≤ a.id) := by
  induction l with
  | nil =>
    intro veg rng tk nid _
    refine ⟨le_refl _, ?_, ?_⟩ <;> intro a ha <;> cases ha
  | cons a rest ih =>
    intro veg rng tk nid h
    have hida : (a.update veg rng).1.id = a.id := Agent.update_id a veg rng
    have ha : a.id < nid := h a (List.mem_cons_self a rest)
    have hrest : ∀ b ∈ rest, b.id < nid := fun b hb => h b (List.mem_cons_of_mem a hb)
    unfold processAgents
    dsimp only
    split_ifs with hd hr
    · obtain ⟨ih1, ih2, ih3⟩ := ih _ _ tk nid hrest
      refine ⟨ih1, ih2, fun b hb => ?_⟩
      rcases ih3 b hb with hmem | hge
      · exact Or.inl (List.mem_cons_of_mem a.id hmem)
      · exact Or.inr hge
    · obtain ⟨ih1, ih2, ih3⟩ := ih _ _ tk (nid + 1)
        (fun b hb => Nat.lt_succ_of_lt (hrest b hb))
      refine ⟨le_trans (Nat.le_succ nid) ih1, fun b hb => ?_, fun b hb => ?_⟩
      · rcases List.mem_cons.mp hb with hb1 | hb1
        · rw [hb1, Agent.reproduce_offspring_id]
          exact lt_of_lt_of_le (Nat.lt_succ_self nid) ih1
        · rcases List.mem_cons.mp hb1 with hb2 | hb2
          · rw [hb2, Agent.reproduce_parent_id, hida]
            exact lt_of_lt_of_le (Nat.lt_succ_of_lt ha) ih1
          · exact ih2 b hb2
      · rcases List.mem_cons.mp hb with hb1 | hb1
        · rw [hb1, Agent.reproduce_offspring_id]
          exact Or.inr (le_refl nid)
        · rcases List.mem_cons.mp hb1 with hb2 | hb2
          · rw [hb2, Agent.reproduce_parent_id, hida]
            exact Or.inl (List.mem_cons_self a.id _)
          · rcases ih3 b hb2 with hmem | hge
            · exact Or.inl (List.mem_cons_of_mem a.id hmem)
            · exact Or.inr (le_trans (Nat.le_succ nid) hge)
    · obtain ⟨ih1, ih2, ih3⟩ := ih _ _ tk nid hrest
      refine ⟨ih1, fun b hb => ?_, fun b hb => ?_⟩
      · rcases List.mem_cons.mp hb with hb1 | hb1
        · rw [hb1, hida]
          exact lt_of_lt_of_le ha ih1
        · exact ih2 b hb1
      · rcases List.mem_cons.mp hb with hb1 | hb1
        · rw [hb1, hida]
          exact Or.inl (List.mem_cons_self a.id _)
        · rcases ih3 b hb1 with hmem | hge
          · exact Or.inl (List.mem_cons_of_mem a.id hmem)
          · exact Or.inr hge

/-- The roster loop preserves distinctness of agent ids. -/
theorem processAgents_nodup (l : List Agent) :
    ∀ (veg : VegetationMap) (rng : SeededRNG) (tk nid : ℕ),
    (∀ a ∈ l, a.id < nid) → (l.map Agent.id).Nodup →
    ((processAgents l veg rng tk nid).agents.map Agent.id).Nodup := by
  induction l with
  | nil =>
    intro veg rng tk nid _ _
    simp [processAgents]
  | cons a rest ih =>
    intro veg rng tk nid h hnd
    have hida : (a.update veg rng).1.id = a.id := Agent.update_id a veg rng
    have ha : a.id < nid := h a (List.mem_cons_self a rest)
    have hrest : ∀ b ∈ rest, b.id < nid := fun b hb => h b (List.mem_cons_of_mem a hb)
    rw [List.map_cons, List.nodup_cons] at hnd
    unfold processAgents
    dsimp only
    split_ifs with hd hr
    · exact ih _ _ tk nid hrest hnd.2
    · have hspec := processAgents_spec rest (a.update veg rng).2.1
        ((a.update veg rng).1.reproduce nid (a.update veg rng).2.2).2.2 tk (nid + 1)
        (fun b hb => Nat.lt_succ_of_lt (hrest b hb))
      have ihn := ih (a.update veg rng).2.1
        ((a.update veg rng).1.reproduce nid (a.update veg rng).2.2).2.2 tk (nid + 1)
        (fun b hb => Nat.lt_succ_of_lt (hrest b hb)) hnd.2
      rw [List.map_cons, List.map_cons, List.nodup_cons, List.nodup_cons]
      refine ⟨?_, ?_, ihn⟩
      · rw [Agent.reproduce_offspring_id]
        intro hmem
        rcases List.mem_cons.mp hmem with h1 | h1
        · rw [Agent.reproduce_parent_id, hida] at h1
          omega
        · obtain ⟨b, hb, hbid⟩ := List.mem_map.mp h1
          rcases hspec.2.2 b hb with hmem2 | hge
          · obtain ⟨c, hc, hcid⟩ := List.mem_map.mp hmem2
            have := hrest c hc
            omega
          · omega
      · rw [Agent.reproduce_parent_id, hida]
        intro hmem
        obtain ⟨b, hb, hbid⟩ := List.mem_map.mp hmem
        rcases hspec.2.2 b hb with hmem2 | hge
        · exact hnd.1 (hbid ▸ hmem2)
        · omega
    · have hspec := processAgents_spec rest (a.update veg rng).2.1 (a.update veg rng).2.2
        tk nid hrest
      have ihn := ih (a.update veg rng).2.1 (a.update veg rng).2.2 tk nid hrest hnd.2
      rw [List.map_cons, List.nodup_cons]
      refine ⟨?_, ihn⟩
      rw [hida]
      intro hmem
      obtain ⟨b, hb, hbid⟩ := List.mem_map.mp hmem
      rcases hspec.2.2 b hb with hmem2 | hge
      · exact hnd.1 (hbid ▸ hmem2)
      · omega

/-- The spawn loop of `World.generate` hands out strictly increasing,
distinct ids below the final counter. -/
theorem spawnLoop_spec (bm : BiomeMap) (w h pop : ℕ) :
    ∀ (fuel : ℕ) (agents : List Agent) (nid : ℕ) (rng : SeededRNG),
    (∀ a ∈ agents, a.id < nid) → (agents.map Agent.id).Nodup →
    (∀ a ∈ (spawnLoop bm w h pop fuel agents nid rng).1,
      a.id < (spawnLoop bm w h pop fuel agents nid rng).2.1) ∧
    ((spawnLoop bm w h pop fuel agents nid rng).1.map Agent.id).Nodup := by
  intro fuel
  induction fuel with
  | zero =>
    intro agents nid rng hlt hnd
    exact ⟨hlt, hnd⟩
  | succ fuel ih =>
    intro agents nid rng hlt hnd
    unfold spawnLoop
    dsimp only
    split_ifs with h1 h2
    · refine ih _ (nid + 1) _ ?_ ?_
      · intro a hb
        rcases List.mem_append.mp hb with hb1 | hb1
        · exact Nat.lt_succ_of_lt (hlt a hb1)
        · rcases List.mem_singleton.mp hb1 with rfl
          exact Nat.lt_succ_self nid
      · rw [List.map_append, List.nodup_append]
        refine ⟨hnd, List.nodup_singleton _, ?_⟩
        intro i hi hj
        rcases List.mem_singleton.mp hj with rfl
        obtain ⟨b, hb, hbid⟩ := List.mem_map.mp hi
        have := hlt b hb
        omega
    · exact ih _ nid _ hlt hnd
    · exact ⟨hlt, hnd⟩

/-- The roster produced by a tick, spelled out. -/
theorem worldTick_agents (w : World) :
    (worldTick w).agents =
      (processAgents (List.insertionSort (fun a b : Agent => a.id ≤ b.id) w.agents)
        (updateVegetation w.vegetationMap w.biomeMap w.moistureMap w.tickCount)
        w.rng w.tickCount w.nextAgentId).agents := rfl

/-- The id counter produced by a tick, spelled out. -/
theorem worldTick_nextAgentId (w : World) :
    (worldTick w).nextAgentId =
      (processAgents (List.insertionSort (fun a b : Agent => a.id ≤ b.id) w.agents)
        (updateVegetation w.vegetationMap w.biomeMap w.moistureMap w.tickCount)
        w.rng w.tickCount w.nextAgentId).nextId := rfl

/-- C6: (1) an agent becomes `REPRODUCING` during `update()` only when,
at the gate point of that update, it is `IDLE` with cooldown 0, hunger
below the threshold, energy at least the requirement and local
vegetation at least the minimum — all four conditions at once;
(2) a freshly generated world has all agent ids below `nextAgentId`,
pairwise distinct; (3) a tick preserves that bound, never decreases the
counter, gives every offspring an id strictly greater than every id of
the pre-tick roster, and preserves distinctness — so ids are unique and
strictly increasing across a world's lifetime. -/
theorem claim_C6_reproduction_gate_and_ids :
    (∀ (a : Agent) (veg : VegetationMap) (rng : SeededRNG),
      (a.update veg rng).1.state = .REPRODUCING → a.state ≠ .REPRODUCING →
      ((a.stepVitals.dispatchState veg rng).1.state = .IDLE ∧
       (a.stepVitals.dispatchState veg rng).1.reproCooldown = 0 ∧
       (a.stepVitals.dispatchState veg rng).1.hunger < REPRO_HUNGER_THRESHOLD ∧
       REPRO_ENERGY_REQUIRED ≤ (a.stepVitals.dispatchState veg rng).1.energy ∧
       REPRO_MIN_LOCAL_VEG ≤ (a.stepVitals.dispatchState veg rng).2.1.get
         (a.stepVitals.dispatchState veg rng).1.x.floor
         (a.stepVitals.dispatchState veg rng).1.y.floor)) ∧
    (∀ cfg : WorldConfig,
      (∀ a ∈ (mkWorld cfg).agents, a.id < (mkWorld cfg).nextAgentId) ∧
      ((mkWorld cfg).agents.map Agent.id).Nodup) ∧
    (∀ w : World, (∀ a ∈ w.agents, a.id < w.nextAgentId) →
      w.nextAgentId ≤ (worldTick w).nextAgentId ∧
      (∀ a ∈ (worldTick w).agents, a.id < (worldTick w).nextAgentId) ∧
      (∀ a ∈ (worldTick w).agents,
        a.id ∈ w.agents.map Agent.id ∨ ∀ b ∈ w.agents, b.id < a.id) ∧
      ((w.agents.map Agent.id).Nodup → ((worldTick w).agents.map Agent.id).Nodup)) := by
  refine ⟨update_repro_gate, fun cfg => ?_, fun w hw => ?_⟩
  · exact spawnLoop_spec _ _ _ _ 1000 [] 1 _
      (fun a ha => absurd ha (List.not_mem_nil a)) List.nodup_nil
  · have hperm : (List.insertionSort (fun a b : Agent => a.id ≤ b.id) w.agents).Perm
        w.agents := List.perm_insertionSort _ _
    have hlt : ∀ a ∈ List.insertionSort (fun a b : Agent => a.id ≤ b.id) w.agents,
        a.id < w.nextAgentId := fun a ha => hw a (hperm.mem_iff.mp ha)
    have hspec := processAgents_spec
      (List.insertionSort (fun a b : Agent => a.id ≤ b.id) w.agents)
      (updateVegetation w.vegetationMap w.biomeMap w.moistureMap w.tickCount)
      w.rng w.tickCount w.nextAgentId hlt
    refine ⟨?_, ?_, ?_, ?_⟩
    · rw [worldTick_nextAgentId]
      exact hspec.1
    · rw [worldTick_agents, worldTick_nextAgentId]
      exact hspec.2.1
    · rw [worldTick_agents]
      intro a ha
      rcases hspec.2.2 a ha with hmem | hge
      · exact Or.inl ((hperm.map Agent.id).mem_iff.mp hmem)
      · exact Or.inr (fun b hb => lt_of_lt_of_le (hw b hb) hge)
    · intro hnd
      rw [worldTick_agents]
      exact processAgents_nodup
        (List.insertionSort (fun a b : Agent => a.id ≤ b.id) w.agents)
        (updateVegetation w.vegetationMap w.biomeMap w.moistureMap w.tickCount)
        w.rng w.tickCount w.nextAgentId hlt ((hperm.map Agent.id).nodup_iff.mpr hnd)

/-- Witness for C6: a concrete update that fires the gate (all four
conditions checked at the gate point), and the id facts on the concrete
one-agent world. -/
theorem claim_C6_reproduction_gate_and_ids_witness :
    ((Agent.stepVitals ⟨1, 0, 0, 5, 50, 1, 5, .IDLE, 100, 100, 0, none⟩
        |>.dispatchState ⟨1, 1, fun _ _ => 2 / 10⟩ (SeededRNG.mk32 0)).1.state = .IDLE ∧
      (Agent.stepVitals ⟨1, 0, 0, 5, 50, 1, 5, .IDLE, 100, 100, 0, none⟩
        |>.dispatchState ⟨1, 1, fun _ _ => 2 / 10⟩ (SeededRNG.mk32 0)).1.reproCooldown = 0 ∧
      (Agent.stepVitals ⟨1, 0, 0, 5, 50, 1, 5, .IDLE, 100, 100, 0, none⟩
        |>.dispatchState ⟨1, 1, fun _ _ => 2 / 10⟩ (SeededRNG.mk32 0)).1.hunger <
        REPRO_HUNGER_THRESHOLD ∧
      REPRO_ENERGY_REQUIRED ≤ (Agent.stepVitals ⟨1, 0, 0, 5, 50, 1, 5, .IDLE, 100, 100, 0, none⟩
        |>.dispatchState ⟨1, 1, fun _ _ => 2 / 10⟩ (SeededRNG.mk32 0)).1.energy ∧
      REPRO_MIN_LOCAL_VEG ≤ (Agent.stepVitals ⟨1, 0, 0, 5, 50, 1, 5, .IDLE, 100, 100, 0, none⟩
        |>.dispatchState ⟨1, 1, fun _ _ => 2 / 10⟩ (SeededRNG.mk32 0)).2.1.get
        (Agent.stepVitals ⟨1, 0, 0, 5, 50, 1, 5, .IDLE, 100, 100, 0, none⟩
          |>.dispatchState ⟨1, 1, fun _ _ => 2 / 10⟩ (SeededRNG.mk32 0)).1.x.floor
        (Agent.stepVitals ⟨1, 0, 0, 5, 50, 1, 5, .IDLE, 100, 100, 0, none⟩
          |>.dispatchState ⟨1, 1, fun _ _ => 2 / 10⟩ (SeededRNG.mk32 0)).1.y.floor) ∧
    beachDeathWorld.nextAgentId ≤ (worldTick beachDeathWorld).nextAgentId :=
  ⟨claim_C6_reproduction_gate_and_ids.1 ⟨1, 0, 0, 5, 50, 1, 5, .IDLE, 100, 100, 0, none⟩
      ⟨1, 1, fun _ _ => 2 / 10⟩ (SeededRNG.mk32 0)
      (by with_unfolding_all decide) (by decide),
    (claim_C6_reproduction_gate_and_ids.2.2 beachDeathWorld
      (by intro a ha
          rcases List.mem_singleton.mp ha with rfl
          decide)).1⟩

/-- Restoring the raw state read from a 32-bit RNG reproduces it
exactly (no reseeding involved). -/
theorem setState_getState (s : ℤ) (r : SeededRNG) :
    (SeededRNG.mk32 s).setState r.getState = r := by
  unfold SeededRNG.setState SeededRNG.getState
  cases r with
  | mk st => exact congrArg SeededRNG.mk (Fin.ext (Nat.mod_eq_of_lt st.isLt))

/-- Every sampled index of `hashTypedArray` is a valid index. -/
theorem hashSampleIdx_lt (len step : ℕ) (hs : 1 ≤ step) :
    ∀ i ∈ hashSampleIdx len step, i < len := by
  intro i hi
  unfold hashSampleIdx at hi
  obtain ⟨k, hk, rfl⟩ := List.mem_map.mp hi
  rw [List.mem_range] at hk
  have h1 : k * step + step ≤ (len + step - 1) / step * step := by
    have := Nat.mul_le_mul_right step (Nat.succ_le_of_lt hk)
    calc k * step + step = (k + 1) * step := by ring
      _ ≤ _ := this
  have h2 : (len + step - 1) / step * step ≤ len + step - 1 := Nat.div_mul_le_self _ _
  omega

/-- The hash of a sampled array depends only on the sampled values. -/
theorem hashTypedArrayQ_congr (len : ℕ) (f g : ℕ → ℚ) (h : ∀ i < len, f i = g i) :
    hashTypedArrayQ len f = hashTypedArrayQ len g := by
  unfold hashTypedArrayQ
  have hidx : ∀ i ∈ hashSampleIdx len (max 1 (len / 10000)), f i = g i :=
    fun i hi => h i (hashSampleIdx_lt len _ (le_max_left _ _) i hi)
  dsimp only
  have h2 : List.map (fun i => f i * ((i : ℚ) + 1)) (hashSampleIdx len (1 ⊔ len / 10000)) =
      List.map (fun i => g i * ((i : ℚ) + 1)) (hashSampleIdx len (1 ⊔ len / 10000)) :=
    List.map_congr_left (fun i hi => by rw [hidx i hi])
  rw [List.map_congr_left hidx, h2]

/-- A linear index below `width * height` addresses an in-bounds cell. -/
theorem lin_inGrid (w h : ℕ) (i : ℕ) (hi : i < w * h) :
    inGrid w h ((i % w : ℕ) : ℤ) ((i / w : ℕ) : ℤ) := by
  have hw : 0 < w := by
    rcases Nat.eq_zero_or_pos w with h0 | h0
    · subst h0
      simp at hi
    · exact h0
  refine ⟨Int.ofNat_nonneg _, ?_, Int.ofNat_nonneg _, ?_⟩
  · exact_mod_cast Nat.mod_lt i hw
  · exact_mod_cast (Nat.div_lt_iff_lt_mul hw).mpr (by rw [Nat.mul_comm]; exact hi)

/-- In-bounds reads of a bounds-restricted grid equal the original. -/
theorem restrictGrid_lin (wd ht : ℕ) (f : ℤ → ℤ → ℚ) (i : ℕ) (hi : i < wd * ht) :
    restrictGrid wd ht f ((i % wd : ℕ) : ℤ) ((i / wd : ℕ) : ℤ) =
      f ((i % wd : ℕ) : ℤ) ((i / wd : ℕ) : ℤ) := by
  unfold restrictGrid
  rw [if_pos (lin_inGrid wd ht i hi)]

/-- In-bounds reads of the restricted biome grid equal the original. -/
theorem restrictGridB_lin (wd ht : ℕ) (f : ℤ → ℤ → BiomeType) (i : ℕ) (hi : i < wd * ht) :
    restrictGridB wd ht f ((i % wd : ℕ) : ℤ) ((i / wd : ℕ) : ℤ) =
      f ((i % wd : ℕ) : ℤ) ((i / wd : ℕ) : ℤ) := by
  unfold restrictGridB
  rw [if_pos (lin_inGrid wd ht i hi)]

/-- `calculateFlow` depends only on the dimensions and the guarded
reads of its height map (not on metadata or out-of-bounds junk). -/
theorem calculateFlow_congr (h1 h2 : HeightMap) (th : ℚ) (hw : h1.width = h2.width)
    (hh : h1.height = h2.height) (hg : HeightMap.get h1 = HeightMap.get h2) :
    calculateFlow h1 th = calculateFlow h2 th := by
  have hcell : cellList h1 = cellList h2 := by
    unfold cellList
    rw [hw, hh, hg]
  have hsort : sortedCells h1 = sortedCells h2 := by
    unfold sortedCells
    rw [hcell]
  have hstep : flowStep h1 = flowStep h2 := by
    funext f c
    unfold flowStep lowestNeighbor lowestStep
    rw [hw, hh, hg]
  have hinit : flowInit h1 = flowInit h2 := by
    unfold flowInit
    rw [hw, hh]
  unfold calculateFlow flowAccum
  simp only [hsort, hstep, hinit, hw, hh]

/-- Restoring a serialized agent with no death record reproduces it
exactly. -/
theorem restore_serialize (a : Agent) (h : a.deathCause = none) :
    restoreAgent (serializeAgent a) = a := by
  unfold restoreAgent serializeAgent mkAgent
  cases a with
  | mk id x y hunger energy speed sr st mh me rc dc =>
    dsimp only at h ⊢
    rw [h]
    rfl

/-- The height checksum of a rebuilt layer equals the original (only
in-bounds values and dimensions are hashed; metadata is not). -/
theorem checksumHeightMap_restrict (m : HeightMap) (wd ht : ℕ)
    (md : Option RealTerrainMetadata) (hw : m.width = wd) (hh : m.height = ht) :
    checksumHeightMap ⟨wd, ht, restrictGrid m.width m.height m.data, md⟩ =
      checksumHeightMap m := by
  subst hw
  subst hh
  unfold checksumHeightMap
  dsimp only
  rw [hashTypedArrayQ_congr (m.width * m.height)
    (HeightMap.lin ⟨m.width, m.height, restrictGrid m.width m.height m.data, md⟩) m.lin
    (fun i hi => restrictGrid_lin m.width m.height m.data i hi)]

/-- The moisture checksum of a rebuilt layer equals the original. -/
theorem checksumMoistureMap_restrict (m : MoistureMap) (wd ht : ℕ)
    (hw : m.width = wd) (hh : m.height = ht) :
    checksumMoistureMap ⟨wd, ht, restrictGrid m.width m.height m.data⟩ =
      checksumMoistureMap m := by
  subst hw
  subst hh
  unfold checksumMoistureMap
  dsimp only
  rw [hashTypedArrayQ_congr (m.width * m.height)
    (MoistureMap.lin ⟨m.width, m.height, restrictGrid m.width m.height m.data⟩) m.lin
    (fun i hi => restrictGrid_lin m.width m.height m.data i hi)]

/-- The vegetation checksum of a rebuilt layer equals the original. -/
theorem checksumVegetation_restrict (m : VegetationMap) (wd ht : ℕ)
    (hw : m.width = wd) (hh : m.height = ht) :
    checksumVegetation ⟨wd, ht, restrictGrid m.width m.height m.data⟩ =
      checksumVegetation m := by
  subst hw
  subst hh
  unfold checksumVegetation
  dsimp only
  rw [hashTypedArrayQ_congr (m.width * m.height)
    (VegetationMap.lin ⟨m.width, m.height, restrictGrid m.width m.height m.data⟩) m.lin
    (fun i hi => restrictGrid_lin m.width m.height m.data i hi)]

/-- The biome checksum of a rebuilt layer equals the original (the
histogram counts only in-bounds codes). -/
theorem checksumBiomeMap_restrict (m : BiomeMap) (wd ht : ℕ)
    (hw : m.width = wd) (hh : m.height = ht) :
    checksumBiomeMap ⟨wd, ht, restrictGridB m.width m.height m.data⟩ =
      checksumBiomeMap m := by
  subst hw
  subst hh
  unfold checksumBiomeMap BiomeMap.getCounts
  dsimp only
  have hfil : ∀ b : BiomeType,
      (List.range (m.width * m.height)).filter
        (fun i => BiomeMap.lin ⟨m.width, m.height, restrictGridB m.width m.height m.data⟩ i = b) =
      (List.range (m.width * m.height)).filter (fun i => m.lin i = b) := by
    intro b
    refine List.filter_congr ?_
    intro i hi
    rw [List.mem_range] at hi
    have hv : BiomeMap.lin ⟨m.width, m.height, restrictGridB m.width m.height m.data⟩ i =
        m.lin i := restrictGridB_lin m.width m.height m.data i hi
    rw [hv]
  have hmap : (biomeOrder.map fun b =>
      ((List.range (m.width * m.height)).filter
        (fun i => BiomeMap.lin ⟨m.width, m.height, restrictGridB m.width m.height m.data⟩ i = b)).length) =
      (biomeOrder.map fun b =>
        ((List.range (m.width * m.height)).filter (fun i => m.lin i = b)).length) :=
    List.map_congr_left (fun b _ => by rw [hfil b])
  rw [hmap]

/-- C3: deserializing a serialized well-formed world succeeds and
yields a world with an identical checksum in every field, an RNG
restored to the exact same state (hence identical future draws — no
reseed-on-load), and a flow map recomputed from the restored height
layer that equals the original. -/
theorem claim_C3_serialization_roundtrip (w : World) (hwf : w.wellFormed) :
    ∃ w2 : World, deserializeWorld (serializeWorld w) = Except.ok w2 ∧
      w2.getChecksum = w.getChecksum ∧ w2.rng = w.rng ∧
      (∀ n, rngOutputs n w2.rng = rngOutputs n w.rng) ∧
      w2.flowMap = w.flowMap := by
  obtain ⟨hw1, hw2, hw3, hw4, hw5, hw6, hw7, hw8, hflow, hdc⟩ := hwf
  have hv : ¬((serializeWorld w).version ≠ SERIALIZATION_VERSION) := fun hx => hx rfl
  cases hE : deserializeWorld (serializeWorld w) with
  | error e =>
    exfalso
    unfold deserializeWorld at hE
    rw [if_neg hv] at hE
    exact Except.noConfusion hE
  | ok w2 =>
    have hE2 := hE
    unfold deserializeWorld at hE2
    rw [if_neg hv] at hE2
    have hrec := (Except.ok.inj hE2).symm
    subst hrec
    refine ⟨_, hE, ?_, ?_, ?_, ?_⟩
    rotate_left 1
    case _ =>
      show (SeededRNG.mk32 (serializeWorld w).seed).setState (serializeWorld w).rngState = w.rng
      exact setState_getState w.seed w.rng
    case _ =>
      intro n
      congr 1
      exact setState_getState w.seed w.rng
    case _ =>
      show calculateFlow _ 100 = w.flowMap
      rw [hflow]
      refine calculateFlow_congr _ _ 100 hw1.symm hw2.symm ?_
      funext x y
      show (if inGrid ((serializeWorld w).width) ((serializeWorld w).height) x y then
          restrictGrid w.heightMap.width w.heightMap.height w.heightMap.data x y else 0) =
        w.heightMap.get x y
      unfold HeightMap.get restrictGrid
      have hww : (serializeWorld w).width = w.heightMap.width := hw1.symm
      have hhh : (serializeWorld w).height = w.heightMap.height := hw2.symm
      rw [hww, hhh]
      by_cases hg : inGrid w.heightMap.width w.heightMap.height x y <;> simp [hg]
    case _ =>
      have hH : checksumHeightMap
          ⟨(serializeWorld w).width, (serializeWorld w).height,
            restrictGrid w.heightMap.width w.heightMap.height w.heightMap.data,
            if (serializeWorld w).locationName.isSome ∨ (serializeWorld w).bounds.isSome then
              some
                { locationName := (serializeWorld w).locationName.getD "Unknown"
                  minElevation := 0
                  maxElevation := 1
                  bounds := (serializeWorld w).bounds.getD ⟨0, 0, 0, 0⟩ }
            else none⟩ = checksumHeightMap w.heightMap :=
        checksumHeightMap_restrict w.heightMap _ _ _ hw1 hw2
      have hM : checksumMoistureMap
          ⟨(serializeWorld w).width, (serializeWorld w).height,
            restrictGrid w.moistureMap.width w.moistureMap.height w.moistureMap.data⟩ =
          checksumMoistureMap w.moistureMap :=
        checksumMoistureMap_restrict w.moistureMap _ _ hw3 hw4
      have hB : checksumBiomeMap
          ⟨(serializeWorld w).width, (serializeWorld w).height,
            restrictGridB w.biomeMap.width w.biomeMap.height w.biomeMap.data⟩ =
          checksumBiomeMap w.biomeMap :=
        checksumBiomeMap_restrict w.biomeMap _ _ hw5 hw6
      have hV : checksumVegetation
          ⟨(serializeWorld w).width, (serializeWorld w).height,
            restrictGrid w.vegetationMap.width w.vegetationMap.height w.vegetationMap.data⟩ =
          checksumVegetation w.vegetationMap :=
        checksumVegetation_restrict w.vegetationMap _ _ hw7 hw8
      have hA : (serializeWorld w).agents.map restoreAgent = w.agents := by
        show (w.agents.map serializeAgent).map restoreAgent = w.agents
        rw [List.map_map]
        calc w.agents.map (restoreAgent ∘ serializeAgent)
            = w.agents.map id :=
              List.map_congr_left (fun a ha => restore_serialize a (hdc a ha))
          _ = w.agents := List.map_id w.agents
      have hFl : calculateFlow
          ⟨(serializeWorld w).width, (serializeWorld w).height,
            restrictGrid w.heightMap.width w.heightMap.height w.heightMap.data,
            if (serializeWorld w).locationName.isSome ∨ (serializeWorld w).bounds.isSome then
              some
                { locationName := (serializeWorld w).locationName.getD "Unknown"
                  minElevation := 0
                  maxElevation := 1
                  bounds := (serializeWorld w).bounds.getD ⟨0, 0, 0, 0⟩ }
            else none⟩ 100 = w.flowMap := by
        rw [hflow]
        refine calculateFlow_congr _ _ 100 hw1.symm hw2.symm ?_
        funext x y
        unfold HeightMap.get restrictGrid
        have hww : (serializeWorld w).width = w.heightMap.width := hw1.symm
        have hhh : (serializeWorld w).height = w.heightMap.height := hw2.symm
        dsimp only
        rw [hww, hhh]
        by_cases hg : inGrid w.heightMap.width w.heightMap.height x y <;> simp [hg]
      unfold World.getChecksum
      dsimp only [serializeWorld] at hH hM hB hV hA hFl ⊢
      rw [hH, hM, hB, hV, hA, hFl]

/-- Witness for C3: the freshly generated 1x1 world with no agents is
well-formed, and the round-trip theorem applies to it. -/
theorem claim_C3_serialization_roundtrip_witness :
    (mkWorld tinyCfg).wellFormed ∧
      ∃ w2 : World, deserializeWorld (serializeWorld (mkWorld tinyCfg)) = Except.ok w2 ∧
        w2.getChecksum = (mkWorld tinyCfg).getChecksum ∧ w2.rng = (mkWorld tinyCfg).rng ∧
        (∀ n, rngOutputs n w2.rng = rngOutputs n (mkWorld tinyCfg).rng) ∧
        w2.flowMap = (mkWorld tinyCfg).flowMap := by
  have hwf : (mkWorld tinyCfg).wellFormed := by
    refine ⟨?_, ?_, ?_, ?_, ?_, ?_, ?_, ?_, rfl, ?_⟩ <;> with_unfolding_all decide
  exact ⟨hwf, claim_C3_serialization_roundtrip (mkWorld tinyCfg) hwf⟩

end GodEngine
